import Mathlib

/-!
Shallow embedding of the NES 6502 core (src/nes/src/cpu.rs and
src/nes/src/bus.rs) and proofs about it.

Machine integers are modelled as Nat.  Operations the source performs with
explicitly wrapping arithmetic (wrapping_add, wrapping_sub, u8 shifts, the
as-casts) are embedded with the corresponding modular arithmetic.  Plain
u16 additions that can exceed 0xFFFF (the run loop's PC increments and the
pos + 1 inside mem_read_u16) are embedded as a checked addition returning
Err.overflow, mirroring the overflow check on Rust's + operator; plain
additions whose operands make overflow impossible (the 16-bit ADC/SBC sum
bounded by 511, the stack address 0x0100 + SP bounded by 0x01FF) are
embedded as plain Nat additions.  Fallible operations (the todo! arms of
the bus, the expect on the opcode table, the panic! on an unsupported
addressing mode) return Except Err.
-/

namespace Nes

/-- Abort conditions of the embedded code: checked-addition overflow, the
todo! arms of the bus, an opcode byte missing from the opcode table, and
the panic on an unsupported addressing mode. -/
inductive Err where
  | overflow
  | busFault
  | badOpcode
  | badMode
deriving DecidableEq

/-- Checked 16-bit addition, mirroring a plain u16 + in the source. -/
def chk16 (a b : Nat) : Except Err Nat :=
  if a + b < 65536 then .ok (a + b) else .error .overflow

/-- Bus state: the 2 KiB cpu_vram array, as a function from index to byte. -/
structure Bus where
  cpu_vram : Nat → Nat

/-- Bus.new from bus.rs: zeroed vram. -/
def Bus.new : Bus := ⟨fun _ => 0⟩

/-- Bus::mem_read (bus.rs lines 37-54): RAM 0x0000..=0x1FFF is mirrored
with index addr &&& 0x07FF; the next arm of the source match covers only
0x3FFF..=0x3FFF and hits todo!; every other address falls to the default
arm and reads 0. -/
def Bus.mem_read (b : Bus) (addr : Nat) : Except Err Nat :=
  if addr ≤ 0x1FFF then .ok (b.cpu_vram (addr &&& 0x07FF))
  else if addr = 0x3FFF then .error .busFault
  else .ok 0

/-- Bus::mem_write (bus.rs lines 55-71): RAM is mirrored as for reads; the
whole PPU range 0x2000..=0x3FFF hits todo!; other writes are dropped. -/
def Bus.mem_write (b : Bus) (addr data : Nat) : Except Err Bus :=
  if addr ≤ 0x1FFF then
    .ok ⟨fun i => if i = addr &&& 0x07FF then data else b.cpu_vram i⟩
  else if addr ≤ 0x3FFF then .error .busFault
  else .ok b

/-- Mem::mem_read_u16 (bus.rs lines 5-9): little endian; the pos + 1 for
the high byte is an unchecked u16 addition. -/
def Bus.mem_read_u16 (b : Bus) (pos : Nat) : Except Err Nat := do
  let lo ← b.mem_read pos
  let p1 ← chk16 pos 1
  let hi ← b.mem_read p1
  .ok ((hi <<< 8) ||| lo)

/-- Mem::mem_write_u16 (bus.rs lines 11-16). -/
def Bus.mem_write_u16 (b : Bus) (pos data : Nat) : Except Err Bus := do
  let hi := data >>> 8
  let lo := data &&& 0xff
  let b1 ← b.mem_write pos lo
  let p1 ← chk16 pos 1
  b1.mem_write p1 hi

/-- Status flags, with the bit values of the Flag enum in cpu.rs. -/
inductive Flag where
  | Carry
  | Zero
  | Interrupt
  | Decimal
  | Break
  | Break2
  | Overflow
  | Negative
deriving DecidableEq

/-- Bit index of each flag. -/
def Flag.idx : Flag → Nat
  | .Carry => 0
  | .Zero => 1
  | .Interrupt => 2
  | .Decimal => 3
  | .Break => 4
  | .Break2 => 5
  | .Overflow => 6
  | .Negative => 7

/-- Numeric value of each flag (flag as u8 in the source). -/
def Flag.val (f : Flag) : Nat := 2 ^ f.idx

/-- Addressing modes of cpu.rs. -/
inductive AddressingMode where
  | Immediate
  | ZeroPage
  | ZeroPage_X
  | ZeroPage_Y
  | Absolute
  | Absolute_X
  | Absolute_Y
  | Indirect
  | Indirect_X
  | Indirect_Y
  | Accumulator
  | NoneAddressing
deriving DecidableEq

/-- CPU state (cpu.rs struct CPU). -/
structure CPU where
  register_a : Nat
  register_x : Nat
  register_y : Nat
  program_counter : Nat
  stack_pointer : Nat
  status : Nat
  bus : Bus

/-- CPU::new: all registers zero (note: stack_pointer starts at 0, not
0xFD; only reset installs 0xFD). -/
def CPU.new (bus : Bus) : CPU :=
  { register_a := 0, register_x := 0, register_y := 0, program_counter := 0
    stack_pointer := 0, status := 0, bus := bus }

def CPU.mem_read (s : CPU) (addr : Nat) : Except Err Nat := s.bus.mem_read addr

def CPU.mem_read_u16 (s : CPU) (pos : Nat) : Except Err Nat := s.bus.mem_read_u16 pos

/-- set_flag (cpu.rs lines 700-706); the clear branch ands with the u8
complement of the flag value, which is 255 ^^^ val. -/
def CPU.set_flag (s : CPU) (f : Flag) (enabled : Bool) : CPU :=
  if enabled then { s with status := s.status ||| f.val }
  else { s with status := s.status &&& (255 ^^^ f.val) }

/-- get_flag (cpu.rs lines 708-710). -/
def CPU.get_flag (s : CPU) (f : Flag) : Bool := s.status &&& f.val != 0

/-- set_zero_and_negative_flag (cpu.rs lines 695-698). -/
def CPU.set_zero_and_negative_flag (s : CPU) (param : Nat) : CPU :=
  (s.set_flag .Zero (param == 0)).set_flag .Negative (param &&& 0b10000000 != 0)

/-- fetch (cpu.rs lines 712-755): effective-address computation.  The u8
wrapping_adds are mod 256, the u16 wrapping_adds mod 65536.  Accumulator
and NoneAddressing hit the panic! arm. -/
def CPU.fetch (s : CPU) (mode : AddressingMode) : Except Err Nat :=
  match mode with
  | .Immediate => .ok s.program_counter
  | .ZeroPage => s.mem_read s.program_counter
  | .ZeroPage_X => do
      let pos ← s.mem_read s.program_counter
      .ok ((pos + s.register_x) % 256)
  | .ZeroPage_Y => do
      let pos ← s.mem_read s.program_counter
      .ok ((pos + s.register_y) % 256)
  | .Absolute => s.mem_read_u16 s.program_counter
  | .Absolute_X => do
      let base ← s.mem_read_u16 s.program_counter
      .ok ((base + s.register_x) % 65536)
  | .Absolute_Y => do
      let base ← s.mem_read_u16 s.program_counter
      .ok ((base + s.register_y) % 65536)
  | .Indirect => do
      let pos ← s.mem_read s.program_counter
      s.mem_read_u16 pos
  | .Indirect_X => do
      let base ← s.mem_read s.program_counter
      s.mem_read_u16 ((base + s.register_x) % 256)
  | .Indirect_Y => do
      let base ← s.mem_read s.program_counter
      s.mem_read_u16 ((base + s.register_y) % 256)
  | _ => .error .badMode

/-- adc (cpu.rs lines 257-272).  The 16-bit sum is at most 511, so the
plain u16 additions cannot overflow; the overflow-flag formula uses the
pre-update accumulator, and the u16 bitwise not is 65535 ^^^ x. -/
def CPU.adc (s : CPU) (mode : AddressingMode) : Except Err CPU := do
  let addr ← s.fetch mode
  let m ← s.mem_read addr
  let tmp := s.register_a + m + (s.status &&& 0x01)
  let s1 := s.set_flag .Zero (tmp &&& 0x00FF == 0)
  let s2 := s1.set_flag .Negative (tmp &&& 0x0080 != 0)
  let s3 := s2.set_flag .Carry (tmp &&& 0x0100 != 0)
  let s4 := s3.set_flag .Overflow
    ((s.register_a ^^^ tmp) &&& (65535 ^^^ (s.register_a ^^^ m)) &&& 0x0080 != 0)
  .ok { s4 with register_a := tmp &&& 0x00FF }

/-- sbc (cpu.rs lines 274-289): adc on the u8 complement of the operand. -/
def CPU.sbc (s : CPU) (mode : AddressingMode) : Except Err CPU := do
  let addr ← s.fetch mode
  let m0 ← s.mem_read addr
  let m := m0 ^^^ 0xFF
  let tmp := s.register_a + m + (s.status &&& 0x01)
  let s1 := s.set_flag .Zero (tmp &&& 0x00FF == 0)
  let s2 := s1.set_flag .Negative (tmp &&& 0x0080 != 0)
  let s3 := s2.set_flag .Carry (tmp &&& 0x0100 != 0)
  let s4 := s3.set_flag .Overflow
    ((s.register_a ^^^ tmp) &&& (65535 ^^^ (s.register_a ^^^ m)) &&& 0x0080 != 0)
  .ok { s4 with register_a := tmp &&& 0x00FF }

def CPU.sec (s : CPU) : CPU := s.set_flag .Carry true

def CPU.clc (s : CPU) : CPU := s.set_flag .Carry false

def CPU.sed (s : CPU) : CPU := s.set_flag .Decimal true

def CPU.sei (s : CPU) : CPU := s.set_flag .Interrupt true

def CPU.cld (s : CPU) : CPU := s.set_flag .Decimal false

def CPU.cli (s : CPU) : CPU := s.set_flag .Interrupt false

def CPU.clv (s : CPU) : CPU := s.set_flag .Overflow false

/-- and (cpu.rs lines 318-325). -/
def CPU.and (s : CPU) (mode : AddressingMode) : Except Err CPU := do
  let addr ← s.fetch mode
  let m ← s.mem_read addr
  let a := s.register_a &&& m
  let s1 := { s with register_a := a }
  let s2 := s1.set_flag .Zero (a == 0)
  .ok (s2.set_flag .Negative (a &&& 0x80 != 0))

/-- asl on memory (cpu.rs lines 327-334); the u8 shift discards bit 7. -/
def CPU.asl (s : CPU) (mode : AddressingMode) : Except Err CPU := do
  let addr ← s.fetch mode
  let m0 ← s.mem_read addr
  let s1 := s.set_flag .Carry (m0 &&& 0x80 != 0)
  let m := (m0 <<< 1) % 256
  let s2 := s1.set_zero_and_negative_flag m
  let b ← s2.bus.mem_write addr m
  .ok { s2 with bus := b }

/-- asl_a (cpu.rs lines 336-340). -/
def CPU.asl_a (s : CPU) : CPU :=
  let s1 := s.set_flag .Carry (s.register_a &&& 0x80 != 0)
  let a := (s1.register_a <<< 1) % 256
  ({ s1 with register_a := a }).set_zero_and_negative_flag a

/-- Sign extension of a byte read as i8 and cast back to u16
(jmp as i8, then jmp as u16 in branch). -/
def sign_extend (j : Nat) : Nat := if j < 128 then j else j + 0xFF00

/-- branch (cpu.rs lines 342-351): when the condition holds, read the
offset byte at PC and set PC to PC.wrapping_add(1).wrapping_add(offset
sign-extended to u16). -/
def CPU.branch (s : CPU) (condition : Bool) : Except Err CPU :=
  if condition then do
    let jmp ← s.mem_read s.program_counter
    let jmp_addr := ((s.program_counter + 1) % 65536 + sign_extend jmp) % 65536
    .ok { s with program_counter := jmp_addr }
  else .ok s

/-- dec on memory (cpu.rs lines 355-361). -/
def CPU.dec (s : CPU) (mode : AddressingMode) : Except Err CPU := do
  let addr ← s.fetch mode
  let m0 ← s.mem_read addr
  let m := (m0 + 255) % 256
  let b ← s.bus.mem_write addr m
  .ok (({ s with bus := b }).set_zero_and_negative_flag m)

def CPU.dex (s : CPU) : CPU :=
  let x := (s.register_x + 255) % 256
  ({ s with register_x := x }).set_zero_and_negative_flag x

def CPU.dey (s : CPU) : CPU :=
  let y := (s.register_y + 255) % 256
  ({ s with register_y := y }).set_zero_and_negative_flag y

/-- eor (cpu.rs lines 373-378). -/
def CPU.eor (s : CPU) (mode : AddressingMode) : Except Err CPU := do
  let addr ← s.fetch mode
  let m ← s.mem_read addr
  let a := s.register_a ^^^ m
  .ok (({ s with register_a := a }).set_zero_and_negative_flag a)

/-- inc on memory (cpu.rs lines 380-386). -/
def CPU.inc (s : CPU) (mode : AddressingMode) : Except Err CPU := do
  let addr ← s.fetch mode
  let m0 ← s.mem_read addr
  let m := (m0 + 1) % 256
  let b ← s.bus.mem_write addr m
  .ok (({ s with bus := b }).set_zero_and_negative_flag m)

def CPU.iny (s : CPU) : CPU :=
  let y := (s.register_y + 1) % 256
  ({ s with register_y := y }).set_zero_and_negative_flag y

def CPU.inx (s : CPU) : CPU :=
  let x := (s.register_x + 1) % 256
  ({ s with register_x := x }).set_zero_and_negative_flag x

/-- jmp (cpu.rs lines 391-393). -/
def CPU.jmp (s : CPU) (mode : AddressingMode) : Except Err CPU := do
  let addr ← s.fetch mode
  .ok { s with program_counter := addr }

/-- push_stack (cpu.rs lines 445-451): write at 0x0100 + SP (the sum is
at most 0x01FF), then decrement SP wrapping. -/
def CPU.push_stack (s : CPU) (data : Nat) : Except Err CPU := do
  let b ← s.bus.mem_write (0x0100 + s.stack_pointer) data
  .ok { s with bus := b, stack_pointer := (s.stack_pointer + 255) % 256 }

/-- push_stack_u16 (cpu.rs lines 453-461): high byte first, then low. -/
def CPU.push_stack_u16 (s : CPU) (data : Nat) : Except Err CPU := do
  let s1 ← s.push_stack (data >>> 8)
  s1.push_stack (data &&& 0xff)

/-- pop_stack (cpu.rs lines 474-481): increment SP wrapping, then read
0x0100 + SP. -/
def CPU.pop_stack (s : CPU) : Except Err (Nat × CPU) := do
  let sp := (s.stack_pointer + 1) % 256
  let v ← s.bus.mem_read (0x0100 + sp)
  .ok (v, { s with stack_pointer := sp })

/-- pop_stack_u16 (cpu.rs lines 463-472): low byte first, then high. -/
def CPU.pop_stack_u16 (s : CPU) : Except Err (Nat × CPU) := do
  let (lo, s1) ← s.pop_stack
  let (hi, s2) ← s1.pop_stack
  .ok ((hi <<< 8) ||| lo, s2)

/-- jsr (cpu.rs lines 394-399): fetch the target, set PC to it, then push
the old (post-fetch) PC wrapping_add 2. -/
def CPU.jsr (s : CPU) (mode : AddressingMode) : Except Err CPU := do
  let jump_addr ← s.fetch mode
  let pc := s.program_counter
  let s1 := { s with program_counter := jump_addr }
  s1.push_stack_u16 ((pc + 2) % 65536)

/-- lsr on memory (cpu.rs lines 401-408). -/
def CPU.lsr (s : CPU) (mode : AddressingMode) : Except Err CPU := do
  let addr ← s.fetch mode
  let m0 ← s.mem_read addr
  let s1 := s.set_flag .Carry (m0 &&& 0x01 != 0)
  let m := m0 >>> 1
  let s2 := s1.set_zero_and_negative_flag m
  let b ← s2.bus.mem_write addr m
  .ok { s2 with bus := b }

def CPU.lsr_a (s : CPU) : CPU :=
  let s1 := s.set_flag .Carry (s.register_a &&& 0x01 != 0)
  let a := s1.register_a >>> 1
  ({ s1 with register_a := a }).set_zero_and_negative_flag a

/-- ora (cpu.rs lines 420-425). -/
def CPU.ora (s : CPU) (mode : AddressingMode) : Except Err CPU := do
  let addr ← s.fetch mode
  let m ← s.mem_read addr
  let a := s.register_a ||| m
  .ok (({ s with register_a := a }).set_zero_and_negative_flag a)

/-- bit (cpu.rs lines 427-443). -/
def CPU.bit (s : CPU) (mode : AddressingMode) : Except Err CPU := do
  let addr ← s.fetch mode
  let data ← s.mem_read addr
  let s1 := s.set_flag .Zero (s.register_a &&& data == 0)
  let s2 := s1.set_flag .Negative (data &&& 0b10000000 > 0)
  .ok (s2.set_flag .Overflow (data &&& 0b01000000 > 0))

/-- pha (cpu.rs lines 483-486). -/
def CPU.pha (s : CPU) : Except Err CPU := s.push_stack s.register_a

/-- php (cpu.rs lines 487-492): push the current status, THEN set Break
and Break2 in the live register. -/
def CPU.php (s : CPU) : Except Err CPU := do
  let s1 ← s.push_stack s.status
  .ok ((s1.set_flag .Break true).set_flag .Break2 true)

/-- pla (cpu.rs lines 493-495): pop into A; no flag update in the source. -/
def CPU.pla (s : CPU) : Except Err CPU := do
  let (v, s1) ← s.pop_stack
  .ok { s1 with register_a := v }

/-- plp (cpu.rs lines 496-500): pop into status, force Break clear and
Break2 set. -/
def CPU.plp (s : CPU) : Except Err CPU := do
  let (v, s1) ← s.pop_stack
  let s2 := { s1 with status := v }
  .ok ((s2.set_flag .Break false).set_flag .Break2 true)

/-- rol on memory (cpu.rs lines 502-521). -/
def CPU.rol (s : CPU) (mode : AddressingMode) : Except Err CPU := do
  let addr ← s.fetch mode
  let m0 ← s.mem_read addr
  let carry := if s.get_flag .Carry then 1 else 0
  let s1 := s.set_flag .Carry (m0 &&& 0x80 != 0)
  let m := ((m0 <<< 1) % 256) ||| carry
  let s2 := s1.set_zero_and_negative_flag m
  let b ← s2.bus.mem_write addr m
  .ok { s2 with bus := b }

def CPU.rol_a (s : CPU) : CPU :=
  let carry := if s.get_flag .Carry then 1 else 0
  let s1 := s.set_flag .Carry (s.register_a &&& 0x80 != 0)
  let a := ((s1.register_a <<< 1) % 256) ||| carry
  ({ s1 with register_a := a }).set_zero_and_negative_flag a

/-- ror on memory (cpu.rs lines 540-558). -/
def CPU.ror (s : CPU) (mode : AddressingMode) : Except Err CPU := do
  let carry := if s.get_flag .Carry then (1 <<< 7 : Nat) else 0
  let addr ← s.fetch mode
  let m0 ← s.mem_read addr
  let s1 := s.set_flag .Carry (m0 &&& 0x01 != 0)
  let m := (m0 >>> 1) ||| carry
  let b ← s1.bus.mem_write addr m
  .ok (({ s1 with bus := b }).set_zero_and_negative_flag m)

def CPU.ror_a (s : CPU) : CPU :=
  let carry := if s.get_flag .Carry then (1 <<< 7 : Nat) else 0
  let s1 := s.set_flag .Carry (s.register_a &&& 0x01 != 0)
  let a := (s1.register_a >>> 1) ||| carry
  ({ s1 with register_a := a }).set_zero_and_negative_flag a

/-- rti (cpu.rs line 574): empty body. -/
def CPU.rti (s : CPU) : CPU := s

/-- rts (cpu.rs lines 575-577): pop a 16-bit value into PC, unmodified. -/
def CPU.rts (s : CPU) : Except Err CPU := do
  let (v, s1) ← s.pop_stack_u16
  .ok { s1 with program_counter := v }

def CPU.tsx (s : CPU) : CPU :=
  ({ s with register_x := s.stack_pointer }).set_zero_and_negative_flag s.stack_pointer

def CPU.txa (s : CPU) : CPU :=
  ({ s with register_a := s.register_x }).set_zero_and_negative_flag s.register_x

/-- txs (cpu.rs lines 587-590): copies X to SP and (deviating from the
6502) updates Z/N from the new SP. -/
def CPU.txs (s : CPU) : CPU :=
  ({ s with stack_pointer := s.register_x }).set_zero_and_negative_flag s.register_x

/-- tya (cpu.rs lines 591-594): A from Y.  Never reached by the dispatch
in run_with_callback. -/
def CPU.tya (s : CPU) : CPU :=
  ({ s with register_a := s.register_y }).set_zero_and_negative_flag s.register_y

/-- tay (cpu.rs lines 642-645): Y from A. -/
def CPU.tay (s : CPU) : CPU :=
  ({ s with register_y := s.register_a }).set_zero_and_negative_flag s.register_a

/-- tax (cpu.rs lines 652-655). -/
def CPU.tax (s : CPU) : CPU :=
  ({ s with register_x := s.register_a }).set_zero_and_negative_flag s.register_a

/-- cpy (cpu.rs lines 606-614): signed 16-bit difference. -/
def CPU.cpy (s : CPU) (mode : AddressingMode) : Except Err CPU := do
  let addr ← s.fetch mode
  let m ← s.mem_read addr
  let tmp : Int := (s.register_y : Int) - (m : Int)
  let s1 := s.set_flag .Zero (tmp == 0)
  let s2 := s1.set_flag .Carry (tmp ≥ 0)
  .ok (s2.set_flag .Negative (tmp < 0))

/-- cpx (cpu.rs lines 616-624). -/
def CPU.cpx (s : CPU) (mode : AddressingMode) : Except Err CPU := do
  let addr ← s.fetch mode
  let m ← s.mem_read addr
  let cmp : Int := (s.register_x : Int) - (m : Int)
  let s1 := s.set_flag .Zero (cmp == 0)
  let s2 := s1.set_flag .Carry (cmp ≥ 0)
  .ok (s2.set_flag .Negative (cmp < 0))

/-- cmp (cpu.rs lines 626-634). -/
def CPU.cmp (s : CPU) (mode : AddressingMode) : Except Err CPU := do
  let addr ← s.fetch mode
  let m ← s.mem_read addr
  let cmp : Int := (s.register_a : Int) - (m : Int)
  let s1 := s.set_flag .Zero (cmp == 0)
  let s2 := s1.set_flag .Carry (cmp ≥ 0)
  .ok (s2.set_flag .Negative (cmp < 0))

/-- lda (cpu.rs lines 662-666). -/
def CPU.lda (s : CPU) (mode : AddressingMode) : Except Err CPU := do
  let addr ← s.fetch mode
  let v ← s.mem_read addr
  .ok (({ s with register_a := v }).set_zero_and_negative_flag v)

/-- sta (cpu.rs lines 668-671). -/
def CPU.sta (s : CPU) (mode : AddressingMode) : Except Err CPU := do
  let addr ← s.fetch mode
  let b ← s.bus.mem_write addr s.register_a
  .ok { s with bus := b }

/-- ldx (cpu.rs lines 673-677). -/
def CPU.ldx (s : CPU) (mode : AddressingMode) : Except Err CPU := do
  let addr ← s.fetch mode
  let v ← s.mem_read addr
  .ok (({ s with register_x := v }).set_zero_and_negative_flag v)

/-- stx (cpu.rs lines 679-682). -/
def CPU.stx (s : CPU) (mode : AddressingMode) : Except Err CPU := do
  let addr ← s.fetch mode
  let b ← s.bus.mem_write addr s.register_x
  .ok { s with bus := b }

/-- ldy (cpu.rs lines 684-688). -/
def CPU.ldy (s : CPU) (mode : AddressingMode) : Except Err CPU := do
  let addr ← s.fetch mode
  let v ← s.mem_read addr
  .ok (({ s with register_y := v }).set_zero_and_negative_flag v)

/-- sty (cpu.rs lines 690-693). -/
def CPU.sty (s : CPU) (mode : AddressingMode) : Except Err CPU := do
  let addr ← s.fetch mode
  let b ← s.bus.mem_write addr s.register_y
  .ok { s with bus := b }

/-- Opcode descriptor: instruction length and addressing mode, the two
fields of the table the run loop consumes, together with the table
invariant stated in spec section 3 that every length is 1 to 3 bytes. -/
structure OpCode where
  len : Nat
  mode : AddressingMode
  len_le : len ≤ 3 := by decide

/-- Modelled from the spec: the opcodes module holding OPCODES_MAP is
not under src/.  Spec section 2 describes it as a static map from opcode
byte to (mnemonic, length, cycles, addressing mode), section 3 gives
lengths 1 to 3, and section 4.2 lists the modes; entries carry the
standard 6502 lengths implied by each mode (implied and accumulator
forms 1 byte, immediate, zero-page, indexed-indirect and branch forms 2
bytes, absolute forms 3 bytes).  The domain is exactly the set of opcode
bytes dispatched in run_with_callback. -/
def opcodes_map (code : Nat) : Option OpCode :=
  match code with
  | 0x00 => some { len := 1, mode := .NoneAddressing }
  | 0xea => some { len := 1, mode := .NoneAddressing }
  | 0x40 => some { len := 1, mode := .NoneAddressing }
  | 0xa9 => some { len := 2, mode := .Immediate }
  | 0xa5 => some { len := 2, mode := .ZeroPage }
  | 0xb5 => some { len := 2, mode := .ZeroPage_X }
  | 0xad => some { len := 3, mode := .Absolute }
  | 0xbd => some { len := 3, mode := .Absolute_X }
  | 0xb9 => some { len := 3, mode := .Absolute_Y }
  | 0xa1 => some { len := 2, mode := .Indirect_X }
  | 0xb1 => some { len := 2, mode := .Indirect_Y }
  | 0xa2 => some { len := 2, mode := .Immediate }
  | 0xa6 => some { len := 2, mode := .ZeroPage }
  | 0xb6 => some { len := 2, mode := .ZeroPage_Y }
  | 0xae => some { len := 3, mode := .Absolute }
  | 0xbe => some { len := 3, mode := .Absolute_Y }
  | 0xa0 => some { len := 2, mode := .Immediate }
  | 0xa4 => some { len := 2, mode := .ZeroPage }
  | 0xb4 => some { len := 2, mode := .ZeroPage_X }
  | 0xac => some { len := 3, mode := .Absolute }
  | 0xbc => some { len := 3, mode := .Absolute_X }
  | 0x85 => some { len := 2, mode := .ZeroPage }
  | 0x95 => some { len := 2, mode := .ZeroPage_X }
  | 0x8d => some { len := 3, mode := .Absolute }
  | 0x9d => some { len := 3, mode := .Absolute_X }
  | 0x99 => some { len := 3, mode := .Absolute_Y }
  | 0x81 => some { len := 2, mode := .Indirect_X }
  | 0x91 => some { len := 2, mode := .Indirect_Y }
  | 0x86 => some { len := 2, mode := .ZeroPage }
  | 0x96 => some { len := 2, mode := .ZeroPage_Y }
  | 0x8e => some { len := 3, mode := .Absolute }
  | 0x84 => some { len := 2, mode := .ZeroPage }
  | 0x94 => some { len := 2, mode := .ZeroPage_X }
  | 0x8c => some { len := 3, mode := .Absolute }
  | 0xaa => some { len := 1, mode := .NoneAddressing }
  | 0xa8 => some { len := 1, mode := .NoneAddressing }
  | 0x8a => some { len := 1, mode := .NoneAddressing }
  | 0x98 => some { len := 1, mode := .NoneAddressing }
  | 0x08 => some { len := 1, mode := .NoneAddressing }
  | 0x48 => some { len := 1, mode := .NoneAddressing }
  | 0x68 => some { len := 1, mode := .NoneAddressing }
  | 0x28 => some { len := 1, mode := .NoneAddressing }
  | 0xba => some { len := 1, mode := .NoneAddressing }
  | 0x9a => some { len := 1, mode := .NoneAddressing }
  | 0x29 => some { len := 2, mode := .Immediate }
  | 0x25 => some { len := 2, mode := .ZeroPage }
  | 0x35 => some { len := 2, mode := .ZeroPage_X }
  | 0x2d => some { len := 3, mode := .Absolute }
  | 0x3d => some { len := 3, mode := .Absolute_X }
  | 0x39 => some { len := 3, mode := .Absolute_Y }
  | 0x21 => some { len := 2, mode := .Indirect_X }
  | 0x31 => some { len := 2, mode := .Indirect_Y }
  | 0x49 => some { len := 2, mode := .Immediate }
  | 0x45 => some { len := 2, mode := .ZeroPage }
  | 0x55 => some { len := 2, mode := .ZeroPage_X }
  | 0x4d => some { len := 3, mode := .Absolute }
  | 0x5d => some { len := 3, mode := .Absolute_X }
  | 0x59 => some { len := 3, mode := .Absolute_Y }
  | 0x41 => some { len := 2, mode := .Indirect_X }
  | 0x51 => some { len := 2, mode := .Indirect_Y }
  | 0x09 => some { len := 2, mode := .Immediate }
  | 0x05 => some { len := 2, mode := .ZeroPage }
  | 0x15 => some { len := 2, mode := .ZeroPage_X }
  | 0x0d => some { len := 3, mode := .Absolute }
  | 0x1d => some { len := 3, mode := .Absolute_X }
  | 0x19 => some { len := 3, mode := .Absolute_Y }
  | 0x01 => some { len := 2, mode := .Indirect_X }
  | 0x11 => some { len := 2, mode := .Indirect_Y }
  | 0x24 => some { len := 2, mode := .ZeroPage }
  | 0x2c => some { len := 3, mode := .Absolute }
  | 0xe9 => some { len := 2, mode := .Immediate }
  | 0xe5 => some { len := 2, mode := .ZeroPage }
  | 0xf5 => some { len := 2, mode := .ZeroPage_X }
  | 0xed => some { len := 3, mode := .Absolute }
  | 0xfd => some { len := 3, mode := .Absolute_X }
  | 0xf9 => some { len := 3, mode := .Absolute_Y }
  | 0xe1 => some { len := 2, mode := .Indirect_X }
  | 0xf1 => some { len := 2, mode := .Indirect_Y }
  | 0x69 => some { len := 2, mode := .Immediate }
  | 0x65 => some { len := 2, mode := .ZeroPage }
  | 0x75 => some { len := 2, mode := .ZeroPage_X }
  | 0x6d => some { len := 3, mode := .Absolute }
  | 0x7d => some { len := 3, mode := .Absolute_X }
  | 0x79 => some { len := 3, mode := .Absolute_Y }
  | 0x61 => some { len := 2, mode := .Indirect_X }
  | 0x71 => some { len := 2, mode := .Indirect_Y }
  | 0xc9 => some { len := 2, mode := .Immediate }
  | 0xc5 => some { len := 2, mode := .ZeroPage }
  | 0xd5 => some { len := 2, mode := .ZeroPage_X }
  | 0xcd => some { len := 3, mode := .Absolute }
  | 0xdd => some { len := 3, mode := .Absolute_X }
  | 0xd9 => some { len := 3, mode := .Absolute_Y }
  | 0xc1 => some { len := 2, mode := .Indirect_X }
  | 0xd1 => some { len := 2, mode := .Indirect_Y }
  | 0xe0 => some { len := 2, mode := .Immediate }
  | 0xe4 => some { len := 2, mode := .ZeroPage }
  | 0xec => some { len := 3, mode := .Absolute }
  | 0xc0 => some { len := 2, mode := .Immediate }
  | 0xc4 => some { len := 2, mode := .ZeroPage }
  | 0xcc => some { len := 3, mode := .Absolute }
  | 0xe8 => some { len := 1, mode := .NoneAddressing }
  | 0xc8 => some { len := 1, mode := .NoneAddressing }
  | 0x88 => some { len := 1, mode := .NoneAddressing }
  | 0xca => some { len := 1, mode := .NoneAddressing }
  | 0xe6 => some { len := 2, mode := .ZeroPage }
  | 0xf6 => some { len := 2, mode := .ZeroPage_X }
  | 0xee => some { len := 3, mode := .Absolute }
  | 0xfe => some { len := 3, mode := .Absolute_X }
  | 0xc6 => some { len := 2, mode := .ZeroPage }
  | 0xd6 => some { len := 2, mode := .ZeroPage_X }
  | 0xce => some { len := 3, mode := .Absolute }
  | 0xde => some { len := 3, mode := .Absolute_X }
  | 0x0a => some { len := 1, mode := .Accumulator }
  | 0x4a => some { len := 1, mode := .Accumulator }
  | 0x6a => some { len := 1, mode := .Accumulator }
  | 0x2a => some { len := 1, mode := .Accumulator }
  | 0x06 => some { len := 2, mode := .ZeroPage }
  | 0x16 => some { len := 2, mode := .ZeroPage_X }
  | 0x0e => some { len := 3, mode := .Absolute }
  | 0x1e => some { len := 3, mode := .Absolute_X }
  | 0x66 => some { len := 2, mode := .ZeroPage }
  | 0x76 => some { len := 2, mode := .ZeroPage_X }
  | 0x6e => some { len := 3, mode := .Absolute }
  | 0x7e => some { len := 3, mode := .Absolute_X }
  | 0x26 => some { len := 2, mode := .ZeroPage }
  | 0x36 => some { len := 2, mode := .ZeroPage_X }
  | 0x2e => some { len := 3, mode := .Absolute }
  | 0x3e => some { len := 3, mode := .Absolute_X }
  | 0x46 => some { len := 2, mode := .ZeroPage }
  | 0x56 => some { len := 2, mode := .ZeroPage_X }
  | 0x4e => some { len := 3, mode := .Absolute }
  | 0x5e => some { len := 3, mode := .Absolute_X }
  | 0x60 => some { len := 1, mode := .NoneAddressing }
  | 0x20 => some { len := 3, mode := .Absolute }
  | 0x4c => some { len := 3, mode := .Absolute }
  | 0x6c => some { len := 3, mode := .Indirect }
  | 0x70 => some { len := 2, mode := .NoneAddressing }
  | 0x50 => some { len := 2, mode := .NoneAddressing }
  | 0x30 => some { len := 2, mode := .NoneAddressing }
  | 0x10 => some { len := 2, mode := .NoneAddressing }
  | 0xf0 => some { len := 2, mode := .NoneAddressing }
  | 0xd0 => some { len := 2, mode := .NoneAddressing }
  | 0xb0 => some { len := 2, mode := .NoneAddressing }
  | 0x90 => some { len := 2, mode := .NoneAddressing }
  | 0x18 => some { len := 1, mode := .NoneAddressing }
  | 0xd8 => some { len := 1, mode := .NoneAddressing }
  | 0x58 => some { len := 1, mode := .NoneAddressing }
  | 0xb8 => some { len := 1, mode := .NoneAddressing }
  | 0x38 => some { len := 1, mode := .NoneAddressing }
  | 0xf8 => some { len := 1, mode := .NoneAddressing }
  | 0x78 => some { len := 1, mode := .NoneAddressing }
  | _ => none

/-- Handler selected by each arm of the dispatch match in
run_with_callback (cpu.rs lines 140-246).  The branch arms carry the
flag and the value it is compared against. -/
inductive Instr where
  | ldx | ldy | stx | sty | sta | lda
  | tax | tay | txa
  | php | pha | pla | plp | tsx | txs
  | and | eor | ora | bit
  | sbc | adc | cmp | cpx | cpy
  | inx | iny | dey | dex | inc | dec
  | asl_a | lsr_a | ror_a | rol_a
  | asl | ror | rol | lsr
  | rts | jsr | jmp
  | branch (f : Flag) (expected : Bool)
  | clc | cld | cli | clv | sec | sed | sei
  | nop | rti
  | unhandled

/-- Dispatch of run_with_callback (cpu.rs lines 140-246): the handler
each opcode byte selects.  Every arm mirrors the source match one to
one, including 0x98 dispatching to tay (not tya) and the empty default
arm (unhandled).  The 0x00 arm is handled separately in step, since it
returns from the run loop. -/
def dispatch_target (code : Nat) : Instr :=
  match code with
  | 0xa2 | 0xa6 | 0xb6 | 0xae | 0xbe => .ldx
  | 0xa0 | 0xa4 | 0xb4 | 0xac | 0xbc => .ldy
  | 0x86 | 0x96 | 0x8e => .stx
  | 0x84 | 0x94 | 0x8c => .sty
  | 0x85 | 0x95 | 0x8d | 0x9d | 0x99 | 0x81 | 0x91 => .sta
  | 0xa9 | 0xa5 | 0xb5 | 0xad | 0xbd | 0xb9 | 0xa1 | 0xb1 => .lda
  | 0xaa => .tax
  | 0xa8 => .tay
  | 0x8a => .txa
  | 0x98 => .tay
  | 0x08 => .php
  | 0x48 => .pha
  | 0x68 => .pla
  | 0x28 => .plp
  | 0xba => .tsx
  | 0x9a => .txs
  | 0x29 | 0x25 | 0x35 | 0x2d | 0x3d | 0x39 | 0x21 | 0x31 => .and
  | 0x49 | 0x45 | 0x55 | 0x4d | 0x5d | 0x59 | 0x41 | 0x51 => .eor
  | 0x09 | 0x05 | 0x15 | 0x0d | 0x1d | 0x19 | 0x01 | 0x11 => .ora
  | 0x24 | 0x2c => .bit
  | 0xe9 | 0xe5 | 0xf5 | 0xed | 0xfd | 0xf9 | 0xe1 | 0xf1 => .sbc
  | 0x69 | 0x65 | 0x75 | 0x6d | 0x7d | 0x79 | 0x61 | 0x71 => .adc
  | 0xc9 | 0xc5 | 0xd5 | 0xcd | 0xdd | 0xd9 | 0xc1 | 0xd1 => .cmp
  | 0xe0 | 0xe4 | 0xec => .cpx
  | 0xc0 | 0xc4 | 0xcc => .cpy
  | 0xe8 => .inx
  | 0xc8 => .iny
  | 0x88 => .dey
  | 0xca => .dex
  | 0xe6 | 0xf6 | 0xee | 0xfe => .inc
  | 0xc6 | 0xd6 | 0xce | 0xde => .dec
  | 0x0a => .asl_a
  | 0x4a => .lsr_a
  | 0x6a => .ror_a
  | 0x2a => .rol_a
  | 0x06 | 0x16 | 0x0e | 0x1e => .asl
  | 0x66 | 0x76 | 0x6e | 0x7e => .ror
  | 0x26 | 0x36 | 0x2e | 0x3e => .rol
  | 0x46 | 0x56 | 0x4e | 0x5e => .lsr
  | 0x60 => .rts
  | 0x20 => .jsr
  | 0x4c | 0x6c => .jmp
  | 0x70 => .branch .Overflow true
  | 0x50 => .branch .Overflow false
  | 0x30 => .branch .Negative true
  | 0x10 => .branch .Negative false
  | 0xf0 => .branch .Zero true
  | 0xd0 => .branch .Zero false
  | 0xb0 => .branch .Carry true
  | 0x90 => .branch .Carry false
  | 0x18 => .clc
  | 0xd8 => .cld
  | 0x58 => .cli
  | 0xb8 => .clv
  | 0x38 => .sec
  | 0xf8 => .sed
  | 0x78 => .sei
  | 0xea => .nop
  | 0x40 => .rti
  | _ => .unhandled

/-- Application of the handler an arm selects, with the argument the
source passes there (the mode from the opcode table, or the arm's flag
comparison for branches); the nop arm and the default arm leave the
state unchanged. -/
def CPU.run_instr (s : CPU) (k : Instr) (mode : AddressingMode) : Except Err CPU :=
  match k with
  | .ldx => s.ldx mode
  | .ldy => s.ldy mode
  | .stx => s.stx mode
  | .sty => s.sty mode
  | .sta => s.sta mode
  | .lda => s.lda mode
  | .tax => .ok s.tax
  | .tay => .ok s.tay
  | .txa => .ok s.txa
  | .php => s.php
  | .pha => s.pha
  | .pla => s.pla
  | .plp => s.plp
  | .tsx => .ok s.tsx
  | .txs => .ok s.txs
  | .and => s.and mode
  | .eor => s.eor mode
  | .ora => s.ora mode
  | .bit => s.bit mode
  | .sbc => s.sbc mode
  | .adc => s.adc mode
  | .cmp => s.cmp mode
  | .cpx => s.cpx mode
  | .cpy => s.cpy mode
  | .inx => .ok s.inx
  | .iny => .ok s.iny
  | .dey => .ok s.dey
  | .dex => .ok s.dex
  | .inc => s.inc mode
  | .dec => s.dec mode
  | .asl_a => .ok s.asl_a
  | .lsr_a => .ok s.lsr_a
  | .ror_a => .ok s.ror_a
  | .rol_a => .ok s.rol_a
  | .asl => s.asl mode
  | .ror => s.ror mode
  | .rol => s.rol mode
  | .lsr => s.lsr mode
  | .rts => s.rts
  | .jsr => s.jsr mode
  | .jmp => s.jmp mode
  | .branch f expected => s.branch (s.get_flag f == expected)
  | .clc => .ok s.clc
  | .cld => .ok s.cld
  | .cli => .ok s.cli
  | .clv => .ok s.clv
  | .sec => .ok s.sec
  | .sed => .ok s.sed
  | .sei => .ok s.sei
  | .nop => .ok s
  | .rti => .ok s.rti
  | .unhandled => .ok s

/-- One dispatch step: select the handler for the opcode byte and run
it. -/
def CPU.exec_opcode (s : CPU) (code : Nat) (mode : AddressingMode) : Except Err CPU :=
  s.run_instr (dispatch_target code) mode

/-- Result of one run-loop iteration: halt is the return on BRK, next is
a state from which the loop continues. -/
inductive StepOut where
  | halt (s : CPU)
  | next (s : CPU)

/-- One iteration of run_with_callback (cpu.rs lines 131-250): read the
opcode byte at PC, increment PC (unchecked u16 +), record it, look up the
descriptor (expect aborts on unknown bytes), dispatch, and, when the
handler left PC at the recorded value, advance PC by len - 1 (unchecked
u16 +).  The 0x00 arm returns from the loop after the PC increment. -/
def CPU.step (s0 : CPU) : Except Err StepOut := do
  let code ← s0.mem_read s0.program_counter
  let pc1 ← chk16 s0.program_counter 1
  let s := { s0 with program_counter := pc1 }
  let program_counter_state := s.program_counter
  let op ← match opcodes_map code with
           | some op => Except.ok op
           | none => Except.error Err.badOpcode
  if code = 0 then
    .ok (.halt s)
  else do
    let s1 ← s.exec_opcode code op.mode
    if program_counter_state = s1.program_counter then do
      let pc2 ← chk16 s1.program_counter (op.len - 1)
      .ok (.next { s1 with program_counter := pc2 })
    else
      .ok (.next s1)

/-- Copy loop of load (cpu.rs lines 118-120): writes byte i of the
program to 0x0600 + i for the k indices starting at i.  The address sum
is a plain u16 +. -/
def copy_program (p : List Nat) : Bus → Nat → Nat → Except Err Bus
  | b, _, 0 => .ok b
  | b, i, k + 1 => do
      let addr ← chk16 0x0600 i
      let b1 ← b.mem_write addr (p.getD i 0)
      copy_program p b1 (i + 1) k

/-- load (cpu.rs lines 117-123): the loop bound is program.len() as u16,
which truncates the length to 16 bits; afterwards 0x0600 is stored
little-endian at 0xFFFC and PC is set to 0x0600. -/
def CPU.load (s : CPU) (program : List Nat) : Except Err CPU := do
  let b ← copy_program program s.bus 0 (program.length % 65536)
  let b1 ← b.mem_write_u16 0xFFFC 0x0600
  .ok { s with bus := b1, program_counter := 0x0600 }

/-- Well-formed bus: every vram cell holds a byte. -/
def wfBus (b : Bus) : Prop := ∀ i, b.cpu_vram i < 256

/-- Well-formed CPU state: registers, SP and status are bytes, PC is a
16-bit value, and the bus is well formed.  This is the Nat-model image of
the u8/u16 typing of the source. -/
def wfCPU (s : CPU) : Prop :=
  s.register_a < 256 ∧ s.register_x < 256 ∧ s.register_y < 256 ∧
  s.program_counter < 65536 ∧ s.stack_pointer < 256 ∧ s.status < 256 ∧
  wfBus s.bus

/-- Extract the state from a step result. -/
def outState : StepOut → CPU
  | .halt s => s
  | .next s => s

/-- Program counter of a step result. -/
def outPC (r : StepOut) : Nat := (outState r).program_counter

/-- State extraction from an Except-wrapped step result, defaulting to a
fresh CPU; used to name intermediate states of concrete runs. -/
def outStateE (r : Except Err StepOut) : CPU :=
  match r with
  | .ok o => outState o
  | .error _ => CPU.new Bus.new

/-- Condition tested by the dispatch arm of each branch opcode
(cpu.rs lines 218-225). -/
def branch_cond (code : Nat) (s : CPU) : Bool :=
  match code with
  | 0x70 => s.get_flag .Overflow == true
  | 0x50 => s.get_flag .Overflow == false
  | 0x30 => s.get_flag .Negative == true
  | 0x10 => s.get_flag .Negative == false
  | 0xf0 => s.get_flag .Zero == true
  | 0xd0 => s.get_flag .Zero == false
  | 0xb0 => s.get_flag .Carry == true
  | _ => s.get_flag .Carry == false

/-! ## Concrete fixtures used by witnesses and counterexamples -/

/-- Bus whose vram holds 0x50 everywhere. -/
def busC1 : Bus := ⟨fun _ => 0x50⟩

/-- CPU about to execute an immediate ADC operand 0x50 with carry set. -/
def cpuC1 : CPU :=
  { register_a := 0x50, register_x := 0, register_y := 0, program_counter := 0
    stack_pointer := 0, status := 1, bus := busC1 }

/-- Bus holding a BEQ
instruction with offset 5 at address 0. -/
def busC2 : Bus := ⟨fun i => if i = 0 then 0xf0 else if i = 1 then 5 else 0⟩

/-- CPU about to execute BEQ +5 with the Zero flag clear. -/
def cpuC2 : CPU :=
  { register_a := 0, register_x := 0, register_y := 0, program_counter := 0
    stack_pointer := 0, status := 0, bus := busC2 }

/-- Bus holding opcode 0x98 (TYA) at address 0. -/
def busC3 : Bus := ⟨fun i => if i = 0 then 0x98 else 0⟩

/-- CPU with A = 1 and Y = 2 about to execute opcode 0x98. -/
def cpuC3 : CPU :=
  { register_a := 1, register_x := 0, register_y := 2, program_counter := 0
    stack_pointer := 0, status := 0, bus := busC3 }

/-- Bus holding opcode 0x68 (PLA) at address 0 and the byte 0x80 at stack
position 0x0111. -/
def busC4 : Bus := ⟨fun i => if i = 0 then 0x68 else if i = 0x111 then 0x80 else 0⟩

/-- CPU with SP = 0x10, the Zero flag set and A = 0, about to execute
PLA; the popped byte will be 0x80. -/
def cpuC4 : CPU :=
  { register_a := 0, register_x := 0, register_y := 0, program_counter := 0
    stack_pointer := 0x10, status := 2, bus := busC4 }

/-- Bus holding opcode 0x08 (PHP) at address 0. -/
def busC5 : Bus := ⟨fun i => if i = 0 then 0x08 else 0⟩

/-- CPU with status 0 and SP = 0xFD about to execute PHP. -/
def cpuC5 : CPU :=
  { register_a := 0, register_x := 0, register_y := 0, program_counter := 0
    stack_pointer := 0xFD, status := 0, bus := busC5 }

/-- Bus holding JSR 0x0610 at 0x0600 and RTS at 0x0610. -/
def busC7 : Bus :=
  ⟨fun i =>
    if i = 0x600 then 0x20 else if i = 0x601 then 0x10 else
    if i = 0x602 then 0x06 else if i = 0x610 then 0x60 else 0⟩

/-- CPU at 0x0600 with SP = 0xFD, about to run JSR 0x0610 and then the
RTS placed at the target. -/
def cpuC7 : CPU :=
  { register_a := 0, register_x := 0, register_y := 0, program_counter := 0x600
    stack_pointer := 0xFD, status := 0, bus := busC7 }

/-- CPU whose program counter sits at 0xFFFF. -/
def cpuC8 : CPU :=
  { register_a := 0, register_x := 0, register_y := 0, program_counter := 0xFFFF
    stack_pointer := 0, status := 0, bus := Bus.new }

/-! ## Flag-bit lemmas -/

theorem Flag.idx_lt (f : Flag) : f.idx < 8 := by cases f <;> decide

theorem Flag.idx_inj {f g : Flag} (h : f ≠ g) : f.idx ≠ g.idx := by
  cases f <;> cases g <;> first | exact absurd rfl h | decide

theorem get_flag_eq_testBit (s : CPU) (f : Flag) :
    s.get_flag f = s.status.testBit f.idx := by
  unfold CPU.get_flag Flag.val
  rw [Nat.and_two_pow]
  cases h : s.status.testBit f.idx <;> simp [h]

theorem set_flag_status_testBit (s : CPU) (f : Flag) (b : Bool) (j : Nat)
    (hj : j < 8) :
    ((s.set_flag f b).status).testBit j =
      if f.idx = j then b else s.status.testBit j := by
  have h255 : Nat.testBit 255 j = true := by
    have : (255 : Nat) = 2 ^ 8 - 1 := rfl
    rw [this, Nat.testBit_two_pow_sub_one]
    simp [hj]
  unfold CPU.set_flag Flag.val
  cases b with
  | false =>
    simp only [Bool.false_eq_true, if_false]
    rw [Nat.testBit_and, Nat.testBit_xor, h255, Nat.testBit_two_pow]
    by_cases hfj : f.idx = j <;> simp [hfj]
  | true =>
    simp only [if_true]
    rw [Nat.testBit_or, Nat.testBit_two_pow]
    by_cases hfj : f.idx = j <;> simp [hfj]

theorem get_flag_set_flag_same (s : CPU) (f : Flag) (b : Bool) :
    (s.set_flag f b).get_flag f = b := by
  rw [get_flag_eq_testBit, set_flag_status_testBit s f b f.idx f.idx_lt]
  simp

theorem get_flag_set_flag_ne (s : CPU) (f g : Flag) (b : Bool) (h : f ≠ g) :
    (s.set_flag f b).get_flag g = s.get_flag g := by
  rw [get_flag_eq_testBit, get_flag_eq_testBit,
    set_flag_status_testBit s f b g.idx g.idx_lt]
  simp [Flag.idx_inj h]

theorem set_flag_register_a (s : CPU) (f : Flag) (b : Bool) :
    (s.set_flag f b).register_a = s.register_a := by
  unfold CPU.set_flag; split <;> rfl

theorem set_flag_register_x (s : CPU) (f : Flag) (b : Bool) :
    (s.set_flag f b).register_x = s.register_x := by
  unfold CPU.set_flag; split <;> rfl

theorem set_flag_register_y (s : CPU) (f : Flag) (b : Bool) :
    (s.set_flag f b).register_y = s.register_y := by
  unfold CPU.set_flag; split <;> rfl

theorem set_flag_program_counter (s : CPU) (f : Flag) (b : Bool) :
    (s.set_flag f b).program_counter = s.program_counter := by
  unfold CPU.set_flag; split <;> rfl

theorem set_flag_stack_pointer (s : CPU) (f : Flag) (b : Bool) :
    (s.set_flag f b).stack_pointer = s.stack_pointer := by
  unfold CPU.set_flag; split <;> rfl

theorem set_flag_bus (s : CPU) (f : Flag) (b : Bool) :
    (s.set_flag f b).bus = s.bus := by
  unfold CPU.set_flag; split <;> rfl

theorem get_flag_update_a (s : CPU) (v : Nat) (f : Flag) :
    ({ s with register_a := v }).get_flag f = s.get_flag f := rfl

/-! ## C1: ADC semantics -/

/-- C1: for every pre-state accumulator A, operand M read through the
addressing mode, and carry bit P &&& 1, ADC computes t = A + M + carry
(a 16-bit sum; it is at most 511, so the Nat sum equals the u16 sum),
stores t &&& 0xFF into the accumulator, and sets Carry to t &&& 0x100 ≠ 0,
Zero to t &&& 0xFF = 0, Negative to t &&& 0x80 ≠ 0, and Overflow to
(A ^^^ t) &&& ~(A ^^^ M) &&& 0x80 ≠ 0, where A is the pre-update
accumulator and ~ is the 16-bit complement. -/
theorem adc_spec (s : CPU) (mode : AddressingMode) (addr m : Nat)
    (ha : s.fetch mode = .ok addr) (hm : s.mem_read addr = .ok m) :
    ∃ s', s.adc mode = .ok s' ∧
      s'.register_a = (s.register_a + m + (s.status &&& 0x01)) &&& 0xFF ∧
      s'.get_flag .Carry
        = ((s.register_a + m + (s.status &&& 0x01)) &&& 0x100 != 0) ∧
      s'.get_flag .Zero
        = ((s.register_a + m + (s.status &&& 0x01)) &&& 0xFF == 0) ∧
      s'.get_flag .Negative
        = ((s.register_a + m + (s.status &&& 0x01)) &&& 0x80 != 0) ∧
      s'.get_flag .Overflow
        = ((s.register_a ^^^ (s.register_a + m + (s.status &&& 0x01)))
            &&& (65535 ^^^ (s.register_a ^^^ m)) &&& 0x80 != 0) := by
  unfold CPU.adc
  simp only [ha, hm, Bind.bind, Except.bind]
  refine ⟨_, rfl, rfl, ?_, ?_, ?_, ?_⟩
  · rw [get_flag_update_a,
      get_flag_set_flag_ne _ _ _ _ (by decide), get_flag_set_flag_same]
  · rw [get_flag_update_a,
      get_flag_set_flag_ne _ _ _ _ (by decide),
      get_flag_set_flag_ne _ _ _ _ (by decide),
      get_flag_set_flag_ne _ _ _ _ (by decide), get_flag_set_flag_same]
  · rw [get_flag_update_a,
      get_flag_set_flag_ne _ _ _ _ (by decide),
      get_flag_set_flag_ne _ _ _ _ (by decide), get_flag_set_flag_same]
  · rw [get_flag_update_a, get_flag_set_flag_same]

/-- C1 witness: ADC at A = 0x50, M = 0x50, carry set: the sum is 0xA1,
so A becomes 0xA1, Carry and Zero are clear, Negative and Overflow set. -/
theorem adc_spec_witness :
    ∃ s', cpuC1.adc .Immediate = .ok s' ∧
      s'.register_a = (cpuC1.register_a + 0x50 + (cpuC1.status &&& 0x01)) &&& 0xFF ∧
      s'.get_flag .Carry
        = ((cpuC1.register_a + 0x50 + (cpuC1.status &&& 0x01)) &&& 0x100 != 0) ∧
      s'.get_flag .Zero
        = ((cpuC1.register_a + 0x50 + (cpuC1.status &&& 0x01)) &&& 0xFF == 0) ∧
      s'.get_flag .Negative
        = ((cpuC1.register_a + 0x50 + (cpuC1.status &&& 0x01)) &&& 0x80 != 0) ∧
      s'.get_flag .Overflow
        = ((cpuC1.register_a ^^^ (cpuC1.register_a + 0x50 + (cpuC1.status &&& 0x01)))
            &&& (65535 ^^^ (cpuC1.register_a ^^^ 0x50)) &&& 0x80 != 0) :=
  adc_spec cpuC1 .Immediate 0 0x50 rfl rfl

/-! ## Memory and step helper lemmas -/

theorem mem_read_ram (b : Bus) (addr : Nat) (h : addr ≤ 0x1FFF) :
    b.mem_read addr = .ok (b.cpu_vram (addr &&& 0x7FF)) := by
  unfold Bus.mem_read; rw [if_pos h]

theorem mem_write_ram (b : Bus) (addr data : Nat) (h : addr ≤ 0x1FFF) :
    b.mem_write addr data
      = .ok ⟨fun i => if i = addr &&& 0x7FF then data else b.cpu_vram i⟩ := by
  unfold Bus.mem_write; rw [if_pos h]

theorem and_7ff_of_lt (x : Nat) (h : x < 2048) : x &&& 0x7FF = x := by
  have h2 : (0x7FF : Nat) = 2 ^ 11 - 1 := rfl
  rw [h2, Nat.and_pow_two_sub_one_of_lt_two_pow h]

/-- A successful read of a nonzero byte can only come from the RAM arm,
so the address is at most 0x1FFF. -/
theorem mem_read_nonzero_ram (b : Bus) (addr v : Nat)
    (h : b.mem_read addr = .ok v) (hv : v ≠ 0) : addr ≤ 0x1FFF := by
  unfold Bus.mem_read at h
  by_cases h1 : addr ≤ 0x1FFF
  · exact h1
  · rw [if_neg h1] at h
    by_cases h2 : addr = 0x3FFF
    · rw [if_pos h2] at h; cases h
    · rw [if_neg h2] at h
      cases h; exact absurd rfl hv

/-- Reads never produce the overflow error. -/
theorem mem_read_ne_overflow (b : Bus) (addr : Nat) :
    b.mem_read addr ≠ .error .overflow := by
  unfold Bus.mem_read
  split
  · intro h; cases h
  · split
    · intro h; cases h
    · intro h; cases h

/-- Writes never produce the overflow error. -/
theorem mem_write_ne_overflow (b : Bus) (addr data : Nat) :
    b.mem_write addr data ≠ .error .overflow := by
  unfold Bus.mem_write
  split
  · intro h; cases h
  · split
    · intro h; cases h
    · intro h; cases h

/-- Values delivered by a well-formed bus are bytes. -/
theorem mem_read_lt_256 (b : Bus) (addr v : Nat) (hb : wfBus b)
    (h : b.mem_read addr = .ok v) : v < 256 := by
  unfold Bus.mem_read at h
  split at h
  · cases h; exact hb _
  · split at h
    · cases h
    · cases h; decide

/-- Front matter of one run-loop iteration: with the opcode byte read,
the PC increment in range, the descriptor found, and the byte not BRK,
step is the dispatch followed by the conditional PC advance. -/
theorem step_reduce (s0 : CPU) (code : Nat) (op : OpCode)
    (hc : s0.mem_read s0.program_counter = .ok code)
    (hop : opcodes_map code = some op)
    (h0 : code ≠ 0)
    (hpc : s0.program_counter + 1 < 65536) :
    s0.step = (do
      let s1 ← ({ s0 with program_counter := s0.program_counter + 1
                 }).exec_opcode code op.mode
      if s0.program_counter + 1 = s1.program_counter then do
        let pc2 ← chk16 s1.program_counter (op.len - 1)
        .ok (.next { s1 with program_counter := pc2 })
      else .ok (.next s1)) := by
  unfold CPU.step
  rw [show s0.mem_read s0.program_counter = s0.bus.mem_read s0.program_counter
      from rfl] at hc
  simp only [CPU.mem_read, hc, chk16, if_pos hpc, hop, h0, if_false,
    Bind.bind, Except.bind]

/-- Reads at any address other than 0x3FFF succeed and deliver a byte on
a well-formed bus. -/
theorem mem_read_total (b : Bus) (addr : Nat) (h : addr ≠ 0x3FFF)
    (hb : wfBus b) : ∃ v, b.mem_read addr = .ok v ∧ v < 256 := by
  unfold Bus.mem_read
  by_cases h1 : addr ≤ 0x1FFF
  · exact ⟨_, by rw [if_pos h1], hb _⟩
  · refine ⟨0, ?_, by decide⟩
    rw [if_neg h1, if_neg h]

/-- push_stack written as a single equation. -/
theorem push_stack_eq (s : CPU) (data : Nat) (hsp : s.stack_pointer < 256) :
    s.push_stack data = .ok { s with
      bus := ⟨fun i => if i = (0x100 + s.stack_pointer) &&& 0x7FF then data
                       else s.bus.cpu_vram i⟩,
      stack_pointer := (s.stack_pointer + 255) % 256 } := by
  unfold CPU.push_stack
  rw [mem_write_ram _ _ _ (by omega)]
  rfl

/-- push_stack_u16 written as a single equation: high byte at the
original SP, low byte one below. -/
theorem push_stack_u16_eq (s : CPU) (data : Nat)
    (hsp : s.stack_pointer < 256) :
    s.push_stack_u16 data = .ok { s with
      bus := ⟨fun i =>
        if i = (0x100 + (s.stack_pointer + 255) % 256) &&& 0x7FF then data &&& 0xFF
        else if i = (0x100 + s.stack_pointer) &&& 0x7FF then data >>> 8
        else s.bus.cpu_vram i⟩,
      stack_pointer := ((s.stack_pointer + 255) % 256 + 255) % 256 } := by
  unfold CPU.push_stack_u16
  rw [push_stack_eq _ _ hsp]
  simp only [Bind.bind, Except.bind]
  rw [push_stack_eq _ _ (Nat.mod_lt _ (by omega))]

/-- pop_stack written as a single equation. -/
theorem pop_stack_eq (s : CPU) (hsp : s.stack_pointer < 256) :
    s.pop_stack = .ok
      (s.bus.cpu_vram ((0x100 + (s.stack_pointer + 1) % 256) &&& 0x7FF),
       { s with stack_pointer := (s.stack_pointer + 1) % 256 }) := by
  unfold CPU.pop_stack
  dsimp only
  rw [mem_read_ram _ _ (by omega)]
  rfl

/-- rts written as a single equation: pop low then high, PC gets the
recombined word. -/
theorem rts_eq (s : CPU) (hsp : s.stack_pointer < 256) :
    s.rts = .ok { s with
      stack_pointer := ((s.stack_pointer + 1) % 256 + 1) % 256,
      program_counter :=
        (s.bus.cpu_vram
          ((0x100 + ((s.stack_pointer + 1) % 256 + 1) % 256) &&& 0x7FF) <<< 8) |||
        s.bus.cpu_vram ((0x100 + (s.stack_pointer + 1) % 256) &&& 0x7FF) } := by
  unfold CPU.rts CPU.pop_stack_u16
  rw [pop_stack_eq _ hsp]
  simp only [Bind.bind, Except.bind]
  rw [pop_stack_eq _ (Nat.mod_lt _ (by omega))]

/-- Recombining the high and low byte of a 16-bit value. -/
theorem recompose_u16 (x : Nat) : ((x >>> 8) <<< 8) ||| (x &&& 0xFF) = x := by
  have h255 : (0xFF : Nat) = 2 ^ 8 - 1 := rfl
  refine Nat.eq_of_testBit_eq fun i => ?_
  rw [Nat.testBit_or, Nat.testBit_shiftLeft, Nat.testBit_shiftRight, h255,
    Nat.and_pow_two_sub_one_eq_mod, Nat.testBit_mod_two_pow]
  by_cases h : 8 ≤ i
  · have h8 : 8 + (i - 8) = i := by omega
    rw [h8]
    simp [h, Nat.not_lt.mpr h]
  · have hi8 : i < 8 := by omega
    simp [h, hi8]

theorem and_7ff_mod (x : Nat) : x &&& 0x7FF = x % 2048 := by
  have h : (0x7FF : Nat) = 2 ^ 11 - 1 := rfl
  rw [h, Nat.and_pow_two_sub_one_eq_mod]

/-- The copy loop succeeds when every touched address stays below the
PPU region. -/
theorem copy_program_ok (p : List Nat) :
    ∀ k i b, 0x600 + i + k ≤ 0x2000 → ∃ b', copy_program p b i k = .ok b' := by
  intro k
  induction k with
  | zero => exact fun i b _ => ⟨b, rfl⟩
  | succ k ih =>
    intro i b h
    unfold copy_program chk16
    rw [if_pos (by omega : 0x600 + i < 65536)]
    simp only [Bind.bind, Except.bind]
    rw [mem_write_ram _ _ _ (by omega)]
    exact ih (i + 1) _ (by omega)

/-- The copy loop aborts with the bus fault as soon as it reaches byte
index 0x1A00, whose address is 0x2000. -/
theorem copy_program_fails (p : List Nat) :
    ∀ k i b, i ≤ 0x1A00 → 0x1A00 < i + k →
      copy_program p b i k = .error .busFault := by
  intro k
  induction k with
  | zero => intro i b h1 h2; omega
  | succ k ih =>
    intro i b h1 h2
    unfold copy_program chk16
    rw [if_pos (by omega : 0x600 + i < 65536)]
    simp only [Bind.bind, Except.bind]
    by_cases hi : i = 0x1A00
    · subst hi
      rw [show Bus.mem_write b 0x2000 (p.getD 0x1A00 0) = .error .busFault
          from rfl]
    · rw [mem_write_ram _ _ _ (by omega)]
      exact ih (i + 1) _ (by omega) (by omega)

/-- Readback characterization of the copy loop on programs of at most
2048 bytes: every copied byte lands at its mirrored vram cell and other
cells are untouched. -/
theorem copy_program_spec (p : List Nat) :
    ∀ k i b, i + k ≤ 2048 →
      ∃ b', copy_program p b i k = .ok b' ∧
        (∀ j, i ≤ j → j < i + k →
          b'.cpu_vram ((0x600 + j) % 2048) = p.getD j 0) ∧
        (∀ a, (∀ j, i ≤ j → j < i + k → a ≠ (0x600 + j) % 2048) →
          b'.cpu_vram a = b.cpu_vram a) := by
  intro k
  induction k with
  | zero =>
    intro i b _
    exact ⟨b, rfl, fun j h1 h2 => by omega, fun a _ => rfl⟩
  | succ k ih =>
    intro i b h
    unfold copy_program chk16
    rw [if_pos (by omega : 0x600 + i < 65536)]
    simp only [Bind.bind, Except.bind]
    rw [mem_write_ram _ _ _ (by omega)]
    rw [and_7ff_mod (0x600 + i)]
    obtain ⟨b', hrun, hin, hout⟩ := ih (i + 1)
      ⟨fun a => if a = (0x600 + i) % 2048 then p.getD i 0 else b.cpu_vram a⟩
      (by omega)
    refine ⟨b', hrun, ?_, ?_⟩
    · intro j h1 h2
      rcases Nat.eq_or_lt_of_le h1 with rfl | hgt
      · rw [hout _ (fun j' hj1 hj2 => by omega)]
        dsimp only
        rw [if_pos rfl]
      · exact hin j (by omega) (by omega)
    · intro a ha
      rw [hout _ (fun j' hj1 hj2 => ha j' (by omega) (by omega))]
      dsimp only
      rw [if_neg (ha i (by omega) (by omega))]

/-! ## Dispatch lemmas for individual opcodes -/

theorem exec_opcode_php (s : CPU) (mode : AddressingMode) :
    s.exec_opcode 0x08 mode = s.php := rfl

theorem exec_opcode_98 (s : CPU) (mode : AddressingMode) :
    s.exec_opcode 0x98 mode = .ok s.tay := rfl

theorem exec_opcode_pla (s : CPU) (mode : AddressingMode) :
    s.exec_opcode 0x68 mode = s.pla := rfl

theorem exec_opcode_jsr (s : CPU) (mode : AddressingMode) :
    s.exec_opcode 0x20 mode = s.jsr mode := rfl

theorem exec_opcode_rts (s : CPU) (mode : AddressingMode) :
    s.exec_opcode 0x60 mode = s.rts := rfl

theorem exec_opcode_70 (s : CPU) (mode : AddressingMode) :
    s.exec_opcode 0x70 mode = s.branch (s.get_flag .Overflow == true) := rfl

theorem exec_opcode_50 (s : CPU) (mode : AddressingMode) :
    s.exec_opcode 0x50 mode = s.branch (s.get_flag .Overflow == false) := rfl

theorem exec_opcode_30 (s : CPU) (mode : AddressingMode) :
    s.exec_opcode 0x30 mode = s.branch (s.get_flag .Negative == true) := rfl

theorem exec_opcode_10 (s : CPU) (mode : AddressingMode) :
    s.exec_opcode 0x10 mode = s.branch (s.get_flag .Negative == false) := rfl

theorem exec_opcode_f0 (s : CPU) (mode : AddressingMode) :
    s.exec_opcode 0xf0 mode = s.branch (s.get_flag .Zero == true) := rfl

theorem exec_opcode_d0 (s : CPU) (mode : AddressingMode) :
    s.exec_opcode 0xd0 mode = s.branch (s.get_flag .Zero == false) := rfl

theorem exec_opcode_b0 (s : CPU) (mode : AddressingMode) :
    s.exec_opcode 0xb0 mode = s.branch (s.get_flag .Carry == true) := rfl

theorem exec_opcode_90 (s : CPU) (mode : AddressingMode) :
    s.exec_opcode 0x90 mode = s.branch (s.get_flag .Carry == false) := rfl

/-! ## C3: opcode 0x98 -/

/-- C3: executing opcode 0x98 from A = 1, Y = 2 yields A = 1 and Y = 1:
the dispatch arm for 0x98 (cpu.rs line 157) calls tay, which copies A
into Y, instead of the tya handler, so Y is clobbered with A and A is
left unchanged, contradicting the claim that A becomes 2 with Y
preserved. -/
theorem opcode_98_runs_tay :
    ∃ s', cpuC3.step = .ok (.next s') ∧
      s'.register_a = 1 ∧ s'.register_y = 1 ∧ s'.program_counter = 1 :=
  ⟨outStateE cpuC3.step, rfl, rfl, rfl, rfl⟩

/-! ## C4: PLA -/

/-- C4: executing PLA (0x68) from SP = 0x10 with the byte 0x80 at
0x0111, A = 0 and the Zero flag set loads A = 0x80 and increments SP to
0x11 as claimed, but leaves the flags untouched: Zero stays set and
Negative stays clear, although the new A is 0x80 (nonzero, bit 7 set).
The pla handler (cpu.rs lines 493-495) never updates Z/N. -/
theorem pla_no_flag_update :
    ∃ s', cpuC4.step = .ok (.next s') ∧
      s'.register_a = 0x80 ∧ s'.stack_pointer = 0x11 ∧
      s'.get_flag .Zero = true ∧ s'.get_flag .Negative = false :=
  ⟨outStateE cpuC4.step, rfl, rfl, rfl, rfl, rfl⟩

/-! ## C5: PHP -/

/-- C5 counterexample: executing PHP from status = 0, SP = 0xFD stores
the byte 0 at 0x01FD; bits 4 and 5 of the stored byte are clear, not
set as the claim states (php pushes status before forcing Break and
Break2, which are set only in the live register, whose value becomes
0x30). -/
theorem php_pushed_byte_not_forced :
    ∃ s', cpuC5.step = .ok (.next s') ∧
      s'.mem_read 0x01FD = .ok 0 ∧
      Nat.testBit 0 4 = false ∧ Nat.testBit 0 5 = false ∧
      s'.status = 0x30 :=
  ⟨outStateE cpuC5.step, rfl, rfl, rfl, rfl, rfl⟩

/-! ## C2: branch instructions -/

/-- Execution of one branch instruction, for a fixed condition value:
when the condition is false PC advances by 2; when it is true and the
offset is not 0xFF, PC becomes start + 2 + offset (sign-extended, mod
65536); when the offset is 0xFF (-1), the branch target start + 1 equals
the PC recorded after the opcode fetch, so the run loop's length-based
advance fires as well and PC ends at start + 2. -/
theorem branch_step_aux (s : CPU) (code o : Nat) (cond : Bool)
    (hc : s.mem_read s.program_counter = .ok code)
    (h0 : code ≠ 0)
    (hop : opcodes_map code = some { len := 2, mode := .NoneAddressing })
    (hpc : s.program_counter ≤ 0x1FFF)
    (ho : s.bus.mem_read (s.program_counter + 1) = .ok o)
    (hov : o < 256)
    (hex : ({ s with program_counter := s.program_counter + 1
             }).exec_opcode code .NoneAddressing
           = ({ s with program_counter := s.program_counter + 1 }).branch cond) :
    ∃ s', s.step = .ok (.next s') ∧
      s'.program_counter =
        if cond then
          if o = 0xFF then s.program_counter + 2
          else (s.program_counter + 2 + sign_extend o) % 65536
        else s.program_counter + 2 := by
  rw [step_reduce s code { len := 2, mode := .NoneAddressing } hc hop h0 (by omega)]
  rw [hex]
  unfold CPU.branch
  cases cond with
  | false =>
    simp only [Bool.false_eq_true, if_false, Bind.bind, Except.bind, if_true]
    simp only [chk16]
    rw [if_pos (by omega : s.program_counter + 1 + (2 - 1) < 65536)]
    refine ⟨_, rfl, ?_⟩
    show s.program_counter + 1 + (2 - 1) = s.program_counter + 2
    omega
  | true =>
    simp only [if_true, Bind.bind, Except.bind, CPU.mem_read]
    rw [ho]
    simp only [Except.bind]
    by_cases h255 : o = 0xFF
    · subst h255
      have h65 : sign_extend 255 = 65535 := rfl
      have heq : s.program_counter + 1 =
          ((s.program_counter + 1 + 1) % 65536 + sign_extend 255) % 65536 := by
        omega
      rw [if_pos heq, ← heq]
      simp only [chk16]
      rw [if_pos (by omega : s.program_counter + 1 + (2 - 1) < 65536)]
      refine ⟨_, rfl, ?_⟩
      simp only [if_true]
    · have hne : ¬(s.program_counter + 1 =
          ((s.program_counter + 1 + 1) % 65536 + sign_extend o) % 65536) := by
        rcases Nat.lt_or_ge o 128 with h | h
        · have he : sign_extend o = o := by unfold sign_extend; rw [if_pos h]
          omega
        · have he : sign_extend o = o + 65280 := by
            unfold sign_extend; rw [if_neg (by omega)]
          omega
      rw [if_neg hne]
      refine ⟨_, rfl, ?_⟩
      rw [if_neg h255]
      show ((s.program_counter + 1 + 1) % 65536 + sign_extend o) % 65536
          = (s.program_counter + 2 + sign_extend o) % 65536
      omega

/-- C2 counterexample: the program LDA #0; BEQ -1 takes the branch (the
Zero flag is set) from the BEQ at 0x0602 with offset byte 0xFF, i.e.
signed offset -1; the claim demands PC = (0x0602 + 2 - 1) mod 65536 =
0x0603, but after the instruction the run loop leaves PC = 0x0604: the
branch target 0x0603 equals the recorded post-fetch PC, so the
length-based advance fires on top of the taken branch. -/
theorem branch_minus_one_cex :
    (do
      let s1 ← (CPU.new Bus.new).load [0xa9, 0x00, 0xf0, 0xff, 0x00]
      let r1 ← s1.step
      let r2 ← (outState r1).step
      pure ((outState r1).program_counter, (outState r1).get_flag .Zero,
        outPC r2))
      = .ok (0x0602, true, 0x0604) ∧
    (0x0602 + 2 + sign_extend 0xFF) % 65536 = 0x0603 ∧
    (0x0604 : Nat) ≠ 0x0603 :=
  ⟨rfl, by decide, by decide⟩

/-- C2 amended: for a branch instruction at address start with operand
byte o (signed 8-bit offset): if the flag condition is false the run
loop leaves PC = start + 2; if it is true and o is not 0xFF, PC =
(start + 2 + o) mod 65536 with o sign-extended; if it is true and o is
0xFF (offset -1), the branch lands on the recorded post-fetch PC, the
length-based advance also fires, and PC = start + 2 instead of
start + 1. -/
theorem branch_pc_spec (s : CPU) (code o : Nat)
    (hcode : code ∈ ([0x10, 0x30, 0x50, 0x70, 0x90, 0xb0, 0xd0, 0xf0] : List Nat))
    (hc : s.mem_read s.program_counter = .ok code)
    (ho : s.bus.mem_read (s.program_counter + 1) = .ok o)
    (hov : o < 256) :
    ∃ s', s.step = .ok (.next s') ∧
      s'.program_counter =
        if branch_cond code s then
          if o = 0xFF then s.program_counter + 2
          else (s.program_counter + 2 + sign_extend o) % 65536
        else s.program_counter + 2 := by
  have hpc : s.program_counter ≤ 0x1FFF := by
    refine mem_read_nonzero_ram _ _ _ hc ?_
    fin_cases hcode <;> decide
  fin_cases hcode
  · exact branch_step_aux s 0x10 o _ hc (by decide) rfl hpc ho hov
      (exec_opcode_10 _ _)
  · exact branch_step_aux s 0x30 o _ hc (by decide) rfl hpc ho hov
      (exec_opcode_30 _ _)
  · exact branch_step_aux s 0x50 o _ hc (by decide) rfl hpc ho hov
      (exec_opcode_50 _ _)
  · exact branch_step_aux s 0x70 o _ hc (by decide) rfl hpc ho hov
      (exec_opcode_70 _ _)
  · exact branch_step_aux s 0x90 o _ hc (by decide) rfl hpc ho hov
      (exec_opcode_90 _ _)
  · exact branch_step_aux s 0xb0 o _ hc (by decide) rfl hpc ho hov
      (exec_opcode_b0 _ _)
  · exact branch_step_aux s 0xd0 o _ hc (by decide) rfl hpc ho hov
      (exec_opcode_d0 _ _)
  · exact branch_step_aux s 0xf0 o _ hc (by decide) rfl hpc ho hov
      (exec_opcode_f0 _ _)

/-- C2 amended witness: a BEQ with offset 5 at address 0 with the Zero
flag clear falls through to PC = 2. -/
theorem branch_pc_spec_witness :
    ∃ s', cpuC2.step = .ok (.next s') ∧
      s'.program_counter =
        if branch_cond 0xf0 cpuC2 then
          if 5 = 0xFF then cpuC2.program_counter + 2
          else (cpuC2.program_counter + 2 + sign_extend 5) % 65536
        else cpuC2.program_counter + 2 :=
  branch_pc_spec cpuC2 0xf0 5 (by decide) rfl rfl (by decide)

/-! ## C7: JSR and RTS -/

/-- Executing RTS on a state whose stack page holds, at the two cells
just above SP, the low and high bytes of a 16-bit value pushed by a JSR:
PC becomes that value and SP is restored by two. -/
theorem rts_step_after_push (s1 : CPU) (sp0 data : Nat) (old : Nat → Nat)
    (hd : data < 65536) (hsp0 : sp0 < 256)
    (hsp : s1.stack_pointer = ((sp0 + 255) % 256 + 255) % 256)
    (hbus : s1.bus = ⟨fun i =>
      if i = (0x100 + (sp0 + 255) % 256) &&& 0x7FF then data &&& 0xFF
      else if i = (0x100 + sp0) &&& 0x7FF then data >>> 8
      else old i⟩)
    (hrts : s1.mem_read s1.program_counter = .ok 0x60) :
    ∃ s2, s1.step = .ok (.next s2) ∧
      s2.program_counter = data ∧ s2.stack_pointer = sp0 := by
  have hpc1 : s1.program_counter ≤ 0x1FFF :=
    mem_read_nonzero_ram _ _ _ hrts (by decide)
  rw [step_reduce s1 0x60 { len := 1, mode := .NoneAddressing } hrts rfl (by decide) (by omega)]
  rw [exec_opcode_rts]
  rw [rts_eq _ (by
    show s1.stack_pointer < 256
    rw [hsp]; exact Nat.mod_lt _ (by omega))]
  simp only [Bind.bind, Except.bind]
  rw [hsp, hbus]
  dsimp only
  have e1 : ((((sp0 + 255) % 256 + 255) % 256 + 1) % 256) = (sp0 + 255) % 256 := by
    omega
  rw [e1]
  have e2 : (((sp0 + 255) % 256 + 1) % 256) = sp0 := by
    omega
  rw [e2]
  rw [and_7ff_of_lt (0x100 + (sp0 + 255) % 256) (by omega),
    and_7ff_of_lt (0x100 + sp0) (by omega)]
  rw [if_neg (by omega : ¬(0x100 + sp0 = 0x100 + (sp0 + 255) % 256))]
  rw [if_pos (rfl : 0x100 + sp0 = 0x100 + sp0)]
  rw [if_pos (rfl : 0x100 + (sp0 + 255) % 256 = 0x100 + (sp0 + 255) % 256)]
  rw [recompose_u16]
  by_cases hT : s1.program_counter + 1 = data
  · rw [if_pos hT]
    simp only [chk16]
    rw [if_pos (by omega : data + (1 - 1) < 65536)]
    refine ⟨_, rfl, ?_, rfl⟩
    show data + (1 - 1) = data
    omega
  · rw [if_neg hT]
    exact ⟨_, rfl, rfl, rfl⟩

/-- C7: from a 3-byte JSR at address a, the step pushes the return word
a + 3 high byte first (high byte at 0x0100 + SP, low byte at
0x0100 + SP - 1) and decrements SP by two; executing RTS afterwards with
the stack untouched resumes instruction fetch at (a + 3) mod 65536 and
restores SP to its pre-JSR value. -/
theorem jsr_rts_round_trip (s : CPU) (hwf : wfCPU s)
    (hjsr : s.mem_read s.program_counter = .ok 0x20) :
    ∃ s1, s.step = .ok (.next s1) ∧
      s1.stack_pointer = ((s.stack_pointer + 255) % 256 + 255) % 256 ∧
      s1.mem_read (0x100 + s.stack_pointer)
        = .ok (((s.program_counter + 3) % 65536) >>> 8) ∧
      s1.mem_read (0x100 + (s.stack_pointer + 255) % 256)
        = .ok (((s.program_counter + 3) % 65536) &&& 0xFF) ∧
      (s1.mem_read s1.program_counter = .ok 0x60 →
        ∃ s2, s1.step = .ok (.next s2) ∧
          s2.program_counter = (s.program_counter + 3) % 65536 ∧
          s2.stack_pointer = s.stack_pointer) := by
  obtain ⟨hA, hX, hY, hPC, hSP, hST, hB⟩ := hwf
  have hpc : s.program_counter ≤ 0x1FFF :=
    mem_read_nonzero_ram _ _ _ hjsr (by decide)
  obtain ⟨lo, hlo, hlo2⟩ :=
    mem_read_total s.bus (s.program_counter + 1) (by omega) hB
  obtain ⟨hi, hhi, hhi2⟩ :=
    mem_read_total s.bus (s.program_counter + 1 + 1) (by omega) hB
  rw [step_reduce s 0x20 { len := 3, mode := .Absolute } hjsr rfl (by decide) (by omega)]
  rw [exec_opcode_jsr]
  unfold CPU.jsr CPU.fetch CPU.mem_read_u16 Bus.mem_read_u16
  dsimp only
  rw [hlo]
  simp only [Bind.bind, Except.bind, chk16]
  rw [if_pos (by omega : s.program_counter + 1 + 1 < 65536)]
  dsimp only
  rw [hhi]
  dsimp only
  rw [push_stack_u16_eq _ _ (by
    show s.stack_pointer < 256
    omega)]
  dsimp only
  by_cases hT : s.program_counter + 1 = hi <<< 8 ||| lo
  · rw [if_pos hT, ← hT]
    rw [if_pos (by omega : s.program_counter + 1 + (3 - 1) < 65536)]
    dsimp only
    refine ⟨_, rfl, rfl, ?_, ?_, ?_⟩
    · show Bus.mem_read _ _ = _
      rw [mem_read_ram _ _ (by omega)]
      dsimp only
      rw [and_7ff_of_lt (0x100 + s.stack_pointer) (by omega),
        and_7ff_of_lt (0x100 + (s.stack_pointer + 255) % 256) (by omega)]
      rw [if_neg (by omega :
        ¬(0x100 + s.stack_pointer = 0x100 + (s.stack_pointer + 255) % 256))]
      rw [if_pos (rfl : (0x100 + s.stack_pointer : Nat) = 0x100 + s.stack_pointer)]
    · show Bus.mem_read _ _ = _
      rw [mem_read_ram _ _ (by omega)]
      dsimp only
      rw [and_7ff_of_lt (0x100 + (s.stack_pointer + 255) % 256) (by omega)]
      rw [if_pos (rfl : (0x100 + (s.stack_pointer + 255) % 256 : Nat)
          = 0x100 + (s.stack_pointer + 255) % 256)]
    · intro hrts
      exact rts_step_after_push _ s.stack_pointer
        ((s.program_counter + 1 + 2) % 65536) s.bus.cpu_vram
        (Nat.mod_lt _ (by omega)) hSP rfl rfl hrts
  · rw [if_neg hT]
    refine ⟨_, rfl, rfl, ?_, ?_, ?_⟩
    · show Bus.mem_read _ _ = _
      rw [mem_read_ram _ _ (by omega)]
      dsimp only
      rw [and_7ff_of_lt (0x100 + s.stack_pointer) (by omega),
        and_7ff_of_lt (0x100 + (s.stack_pointer + 255) % 256) (by omega)]
      rw [if_neg (by omega :
        ¬(0x100 + s.stack_pointer = 0x100 + (s.stack_pointer + 255) % 256))]
      rw [if_pos (rfl : (0x100 + s.stack_pointer : Nat) = 0x100 + s.stack_pointer)]
    · show Bus.mem_read _ _ = _
      rw [mem_read_ram _ _ (by omega)]
      dsimp only
      rw [and_7ff_of_lt (0x100 + (s.stack_pointer + 255) % 256) (by omega)]
      rw [if_pos (rfl : (0x100 + (s.stack_pointer + 255) % 256 : Nat)
          = 0x100 + (s.stack_pointer + 255) % 256)]
    · intro hrts
      exact rts_step_after_push _ s.stack_pointer
        ((s.program_counter + 1 + 2) % 65536) s.bus.cpu_vram
        (Nat.mod_lt _ (by omega)) hSP rfl rfl hrts

/-- Well-formedness of the JSR/RTS fixture bus. -/
theorem wfBus_busC7 : wfBus busC7 := by
  intro i
  unfold busC7
  dsimp only
  split
  · decide
  · split
    · decide
    · split
      · decide
      · split <;> decide

/-- C7 witness: JSR 0x0610 at 0x0600 with SP = 0xFD pushes 0x06 at
0x01FD and 0x03 at 0x01FC; the RTS at 0x0610 returns to 0x0603 with SP
back at 0xFD. -/
theorem jsr_rts_round_trip_witness :
    ∃ s1, cpuC7.step = .ok (.next s1) ∧
      s1.stack_pointer = ((cpuC7.stack_pointer + 255) % 256 + 255) % 256 ∧
      s1.mem_read (0x100 + cpuC7.stack_pointer)
        = .ok (((cpuC7.program_counter + 3) % 65536) >>> 8) ∧
      s1.mem_read (0x100 + (cpuC7.stack_pointer + 255) % 256)
        = .ok (((cpuC7.program_counter + 3) % 65536) &&& 0xFF) ∧
      (s1.mem_read s1.program_counter = .ok 0x60 →
        ∃ s2, s1.step = .ok (.next s2) ∧
          s2.program_counter = (cpuC7.program_counter + 3) % 65536 ∧
          s2.stack_pointer = cpuC7.stack_pointer) :=
  jsr_rts_round_trip cpuC7
    ⟨by decide, by decide, by decide, by decide, by decide, by decide,
      wfBus_busC7⟩ rfl

/-- C5 amended: PHP writes the pre-instruction status byte unchanged to
0x0100 + SP and decrements SP wrapping; Break and Break2 are forced set
only in the live P register afterwards, whose other bits are preserved
(P becomes P ||| 0x30). -/
theorem php_spec (s : CPU) (hsp : s.stack_pointer < 256)
    (hc : s.mem_read s.program_counter = .ok 0x08) :
    ∃ s', s.step = .ok (.next s') ∧
      s'.mem_read (0x0100 + s.stack_pointer) = .ok s.status ∧
      s'.status = s.status ||| 0x30 ∧
      s'.stack_pointer = (s.stack_pointer + 255) % 256 ∧
      s'.program_counter = s.program_counter + 1 := by
  have hpc : s.program_counter ≤ 0x1FFF :=
    mem_read_nonzero_ram _ _ _ hc (by decide)
  rw [step_reduce s 0x08 { len := 1, mode := .NoneAddressing } hc rfl (by decide) (by omega)]
  rw [exec_opcode_php]
  simp only [CPU.php, CPU.push_stack, Bind.bind, Except.bind]
  rw [mem_write_ram _ _ _ (by omega : 0x0100 + s.stack_pointer ≤ 0x1FFF)]
  simp only [CPU.set_flag, Flag.val, Flag.idx, if_true, Except.bind]
  simp only [chk16]
  rw [if_pos (by omega : s.program_counter + 1 + (1 - 1) < 65536)]
  refine ⟨_, rfl, ?_, ?_, rfl, ?_⟩
  · show Bus.mem_read _ _ = _
    rw [mem_read_ram _ _ (by omega)]
    simp
  · show s.status ||| 2 ^ 4 ||| 2 ^ 5 = s.status ||| 0x30
    rw [Nat.or_assoc]
    congr 1
  · show s.program_counter + 1 + (1 - 1) = s.program_counter + 1
    omega

/-- C5 amended witness: PHP from status 0, SP 0xFD stores 0 at 0x01FD,
sets the live P to 0x30, and moves SP to 0xFC. -/
theorem php_spec_witness :
    ∃ s', cpuC5.step = .ok (.next s') ∧
      s'.mem_read (0x0100 + cpuC5.stack_pointer) = .ok cpuC5.status ∧
      s'.status = cpuC5.status ||| 0x30 ∧
      s'.stack_pointer = (cpuC5.stack_pointer + 255) % 256 ∧
      s'.program_counter = cpuC5.program_counter + 1 :=
  php_spec cpuC5 (by decide) rfl

/-! ## C9: PPU-region bus accesses -/

/-- C9: on the NES bus, a write anywhere in 0x2000..=0x3FFF is the fatal
todo! arm, but a read is fatal only at 0x3FFF: the read match arm
(bus.rs line 44) covers 0x3FFF..=0x3FFF, so reads at 0x2000..0x3FFE fall
through to the default arm and return 0, contradicting the claim that no
read in the range returns a value. -/
theorem ppu_read_range_bug :
    Bus.new.mem_read 0x2000 = .ok 0 ∧
    Bus.new.mem_read 0x3FFE = .ok 0 ∧
    Bus.new.mem_read 0x3FFF = .error .busFault ∧
    Bus.new.mem_write 0x2000 5 = .error .busFault ∧
    Bus.new.mem_write 0x3FFE 5 = .error .busFault ∧
    Bus.new.mem_write 0x3FFF 5 = .error .busFault :=
  ⟨rfl, rfl, rfl, rfl, rfl, rfl⟩

/-! ## C8: overflow analysis of one step -/

theorem ok_ne_ovf {A : Type} (a : A) :
    (Except.ok a : Except Err A) ≠ .error .overflow := by
  intro h; cases h

theorem bind_no_ovf {A B : Type} {x : Except Err A} {f : A → Except Err B}
    (hx : x ≠ .error .overflow)
    (hf : ∀ a, x = .ok a → f a ≠ .error .overflow) :
    (x >>= f) ≠ .error .overflow := by
  intro h
  cases hx2 : x with
  | error e =>
    rw [hx2] at h
    simp only [Bind.bind, Except.bind] at h
    cases h
    exact hx hx2
  | ok a =>
    rw [hx2] at h
    simp only [Bind.bind, Except.bind] at h
    exact hf a hx2 h

theorem mem_read_u16_no_ovf (b : Bus) (pos : Nat) (h : pos < 65535) :
    b.mem_read_u16 pos ≠ .error .overflow := by
  unfold Bus.mem_read_u16
  refine bind_no_ovf (mem_read_ne_overflow b pos) fun lo _ => ?_
  refine bind_no_ovf ?_ fun p1 _ => ?_
  · unfold chk16
    rw [if_pos (by omega)]
    exact ok_ne_ovf _
  · exact bind_no_ovf (mem_read_ne_overflow b p1) fun hi _ => ok_ne_ovf _

theorem fetch_no_ovf (s : CPU) (mode : AddressingMode)
    (hpc : s.program_counter ≤ 0x2000) (hB : wfBus s.bus) :
    s.fetch mode ≠ .error .overflow := by
  cases mode with
  | Immediate => exact ok_ne_ovf _
  | ZeroPage => exact mem_read_ne_overflow _ _
  | ZeroPage_X =>
    exact bind_no_ovf (mem_read_ne_overflow _ _) fun a _ => ok_ne_ovf _
  | ZeroPage_Y =>
    exact bind_no_ovf (mem_read_ne_overflow _ _) fun a _ => ok_ne_ovf _
  | Absolute => exact mem_read_u16_no_ovf _ _ (by omega)
  | Absolute_X =>
    exact bind_no_ovf (mem_read_u16_no_ovf _ _ (by omega)) fun a _ => ok_ne_ovf _
  | Absolute_Y =>
    exact bind_no_ovf (mem_read_u16_no_ovf _ _ (by omega)) fun a _ => ok_ne_ovf _
  | Indirect =>
    refine bind_no_ovf (mem_read_ne_overflow _ _) fun a ha => ?_
    have := mem_read_lt_256 _ _ _ hB ha
    exact mem_read_u16_no_ovf _ _ (by omega)
  | Indirect_X =>
    refine bind_no_ovf (mem_read_ne_overflow _ _) fun a _ => ?_
    have := Nat.mod_lt (a + s.register_x) (y := 256) (by omega)
    exact mem_read_u16_no_ovf _ _ (by omega)
  | Indirect_Y =>
    refine bind_no_ovf (mem_read_ne_overflow _ _) fun a _ => ?_
    have := Nat.mod_lt (a + s.register_y) (y := 256) (by omega)
    exact mem_read_u16_no_ovf _ _ (by omega)
  | Accumulator => intro h; cases h
  | NoneAddressing => intro h; cases h

theorem push_stack_no_ovf (s : CPU) (data : Nat) :
    s.push_stack data ≠ .error .overflow := by
  unfold CPU.push_stack
  exact bind_no_ovf (mem_write_ne_overflow _ _ _) fun b _ => ok_ne_ovf _

theorem push_stack_u16_no_ovf (s : CPU) (data : Nat) :
    s.push_stack_u16 data ≠ .error .overflow := by
  unfold CPU.push_stack_u16
  exact bind_no_ovf (push_stack_no_ovf _ _) fun s1 _ => push_stack_no_ovf _ _

theorem pop_stack_no_ovf (s : CPU) :
    s.pop_stack ≠ .error .overflow := by
  unfold CPU.pop_stack
  dsimp only
  exact bind_no_ovf (mem_read_ne_overflow _ _) fun v _ => ok_ne_ovf _

theorem pop_stack_u16_no_ovf (s : CPU) :
    s.pop_stack_u16 ≠ .error .overflow := by
  unfold CPU.pop_stack_u16
  refine bind_no_ovf (pop_stack_no_ovf _) fun a _ => ?_
  rcases a with ⟨lo, s1⟩
  refine bind_no_ovf (pop_stack_no_ovf _) fun a2 _ => ?_
  rcases a2 with ⟨hi, s2⟩
  exact ok_ne_ovf _

theorem run_instr_no_ovf (s : CPU) (k : Instr) (mode : AddressingMode)
    (hpc : s.program_counter ≤ 0x2000) (hB : wfBus s.bus) :
    s.run_instr k mode ≠ .error .overflow := by
  have hfetch := fetch_no_ovf s mode hpc hB
  cases k with
  | ldx =>
    refine bind_no_ovf hfetch fun addr _ => ?_
    exact bind_no_ovf (mem_read_ne_overflow _ _) fun m _ => ok_ne_ovf _
  | ldy =>
    refine bind_no_ovf hfetch fun addr _ => ?_
    exact bind_no_ovf (mem_read_ne_overflow _ _) fun m _ => ok_ne_ovf _
  | stx =>
    refine bind_no_ovf hfetch fun addr _ => ?_
    exact bind_no_ovf (mem_write_ne_overflow _ _ _) fun b _ => ok_ne_ovf _
  | sty =>
    refine bind_no_ovf hfetch fun addr _ => ?_
    exact bind_no_ovf (mem_write_ne_overflow _ _ _) fun b _ => ok_ne_ovf _
  | sta =>
    refine bind_no_ovf hfetch fun addr _ => ?_
    exact bind_no_ovf (mem_write_ne_overflow _ _ _) fun b _ => ok_ne_ovf _
  | lda =>
    refine bind_no_ovf hfetch fun addr _ => ?_
    exact bind_no_ovf (mem_read_ne_overflow _ _) fun m _ => ok_ne_ovf _
  | tax => exact ok_ne_ovf _
  | tay => exact ok_ne_ovf _
  | txa => exact ok_ne_ovf _
  | php => exact bind_no_ovf (push_stack_no_ovf _ _) fun s1 _ => ok_ne_ovf _
  | pha => exact push_stack_no_ovf _ _
  | pla =>
    refine bind_no_ovf (pop_stack_no_ovf _) fun a _ => ?_
    rcases a with ⟨v, s1⟩
    exact ok_ne_ovf _
  | plp =>
    refine bind_no_ovf (pop_stack_no_ovf _) fun a _ => ?_
    rcases a with ⟨v, s1⟩
    exact ok_ne_ovf _
  | tsx => exact ok_ne_ovf _
  | txs => exact ok_ne_ovf _
  | and =>
    refine bind_no_ovf hfetch fun addr _ => ?_
    exact bind_no_ovf (mem_read_ne_overflow _ _) fun m _ => ok_ne_ovf _
  | eor =>
    refine bind_no_ovf hfetch fun addr _ => ?_
    exact bind_no_ovf (mem_read_ne_overflow _ _) fun m _ => ok_ne_ovf _
  | ora =>
    refine bind_no_ovf hfetch fun addr _ => ?_
    exact bind_no_ovf (mem_read_ne_overflow _ _) fun m _ => ok_ne_ovf _
  | bit =>
    refine bind_no_ovf hfetch fun addr _ => ?_
    exact bind_no_ovf (mem_read_ne_overflow _ _) fun m _ => ok_ne_ovf _
  | sbc =>
    refine bind_no_ovf hfetch fun addr _ => ?_
    exact bind_no_ovf (mem_read_ne_overflow _ _) fun m _ => ok_ne_ovf _
  | adc =>
    refine bind_no_ovf hfetch fun addr _ => ?_
    exact bind_no_ovf (mem_read_ne_overflow _ _) fun m _ => ok_ne_ovf _
  | cmp =>
    refine bind_no_ovf hfetch fun addr _ => ?_
    exact bind_no_ovf (mem_read_ne_overflow _ _) fun m _ => ok_ne_ovf _
  | cpx =>
    refine bind_no_ovf hfetch fun addr _ => ?_
    exact bind_no_ovf (mem_read_ne_overflow _ _) fun m _ => ok_ne_ovf _
  | cpy =>
    refine bind_no_ovf hfetch fun addr _ => ?_
    exact bind_no_ovf (mem_read_ne_overflow _ _) fun m _ => ok_ne_ovf _
  | inx => exact ok_ne_ovf _
  | iny => exact ok_ne_ovf _
  | dey => exact ok_ne_ovf _
  | dex => exact ok_ne_ovf _
  | inc =>
    refine bind_no_ovf hfetch fun addr _ => ?_
    refine bind_no_ovf (mem_read_ne_overflow _ _) fun m _ => ?_
    exact bind_no_ovf (mem_write_ne_overflow _ _ _) fun b _ => ok_ne_ovf _
  | dec =>
    refine bind_no_ovf hfetch fun addr _ => ?_
    refine bind_no_ovf (mem_read_ne_overflow _ _) fun m _ => ?_
    exact bind_no_ovf (mem_write_ne_overflow _ _ _) fun b _ => ok_ne_ovf _
  | asl_a => exact ok_ne_ovf _
  | lsr_a => exact ok_ne_ovf _
  | ror_a => exact ok_ne_ovf _
  | rol_a => exact ok_ne_ovf _
  | asl =>
    refine bind_no_ovf hfetch fun addr _ => ?_
    refine bind_no_ovf (mem_read_ne_overflow _ _) fun m _ => ?_
    exact bind_no_ovf (mem_write_ne_overflow _ _ _) fun b _ => ok_ne_ovf _
  | ror =>
    refine bind_no_ovf hfetch fun addr _ => ?_
    refine bind_no_ovf (mem_read_ne_overflow _ _) fun m _ => ?_
    exact bind_no_ovf (mem_write_ne_overflow _ _ _) fun b _ => ok_ne_ovf _
  | rol =>
    refine bind_no_ovf hfetch fun addr _ => ?_
    refine bind_no_ovf (mem_read_ne_overflow _ _) fun m _ => ?_
    exact bind_no_ovf (mem_write_ne_overflow _ _ _) fun b _ => ok_ne_ovf _
  | lsr =>
    refine bind_no_ovf hfetch fun addr _ => ?_
    refine bind_no_ovf (mem_read_ne_overflow _ _) fun m _ => ?_
    exact bind_no_ovf (mem_write_ne_overflow _ _ _) fun b _ => ok_ne_ovf _
  | rts =>
    refine bind_no_ovf (pop_stack_u16_no_ovf _) fun a _ => ?_
    rcases a with ⟨v, s1⟩
    exact ok_ne_ovf _
  | jsr =>
    refine bind_no_ovf hfetch fun t _ => ?_
    exact push_stack_u16_no_ovf _ _
  | jmp => exact bind_no_ovf hfetch fun addr _ => ok_ne_ovf _
  | branch f expected =>
    show s.branch (s.get_flag f == expected) ≠ Except.error Err.overflow
    unfold CPU.branch
    split
    · exact bind_no_ovf (mem_read_ne_overflow _ _) fun j _ => ok_ne_ovf _
    · exact ok_ne_ovf _
  | clc => exact ok_ne_ovf _
  | cld => exact ok_ne_ovf _
  | cli => exact ok_ne_ovf _
  | clv => exact ok_ne_ovf _
  | sec => exact ok_ne_ovf _
  | sed => exact ok_ne_ovf _
  | sei => exact ok_ne_ovf _
  | nop => exact ok_ne_ovf _
  | rti => exact ok_ne_ovf _
  | unhandled => exact ok_ne_ovf _

theorem exec_opcode_no_ovf (s : CPU) (code : Nat) (mode : AddressingMode)
    (hpc : s.program_counter ≤ 0x2000) (hB : wfBus s.bus) :
    s.exec_opcode code mode ≠ .error .overflow :=
  run_instr_no_ovf s (dispatch_target code) mode hpc hB

/-- One run-loop iteration from a well-formed state whose PC is not
0xFFFF never aborts with the overflow error: every other abort is a bus
fault, a bad opcode, or a bad mode, and all the wrapping arithmetic is
modular. -/
theorem step_no_overflow (s : CPU) (hwf : wfCPU s)
    (hne : s.program_counter ≠ 0xFFFF) :
    s.step ≠ .error .overflow := by
  obtain ⟨hA, hX, hY, hPC, hSP, hST, hB⟩ := hwf
  unfold CPU.step CPU.mem_read
  refine bind_no_ovf (mem_read_ne_overflow _ _) fun code hcode => ?_
  dsimp only
  refine bind_no_ovf ?_ fun pc1 hpc1 => ?_
  · unfold chk16
    rw [if_pos (by omega)]
    exact ok_ne_ovf _
  · have hpc1e : pc1 = s.program_counter + 1 := by
      unfold chk16 at hpc1
      rw [if_pos (by omega)] at hpc1
      cases hpc1
      rfl
    subst hpc1e
    cases hmap : opcodes_map code with
    | none =>
      simp only [Bind.bind, Except.bind]
      intro h; cases h
    | some op =>
      simp only [Bind.bind, Except.bind]
      by_cases h0 : code = 0
      · rw [if_pos h0]
        exact ok_ne_ovf _
      · rw [if_neg h0]
        have hram : s.program_counter ≤ 0x1FFF :=
          mem_read_nonzero_ram _ _ _ hcode h0
        have hlen := op.len_le
        refine bind_no_ovf
          (exec_opcode_no_ovf _ code op.mode
            (by show s.program_counter + 1 ≤ 0x2000; omega) hB)
          fun s1 hs1 => ?_
        split
        · next hcond =>
          have hc2 : s.program_counter + 1 = s1.program_counter := hcond
          refine bind_no_ovf ?_ fun pc2 _ => ok_ne_ovf _
          unfold chk16
          rw [if_pos (by omega)]
          exact ok_ne_ovf _
        · exact ok_ne_ovf _

/-- C8 counterexample: load JMP $FFFF and run: the first step sets PC to
0xFFFF; the second step reads opcode 0 there, then the run loop's
unchecked PC increment overflows and the step aborts with the overflow
error instead of wrapping to 0. -/
theorem pc_increment_overflow_cex :
    (do
      let s1 ← (CPU.new Bus.new).load [0x4c, 0xff, 0xff]
      let r1 ← s1.step
      pure (outPC r1)) = .ok 0xFFFF ∧
    (do
      let s1 ← (CPU.new Bus.new).load [0x4c, 0xff, 0xff]
      let r1 ← s1.step
      (outState r1).step) = .error .overflow :=
  ⟨rfl, rfl⟩

/-- C8 amended: register, stack-pointer and branch/JSR program-counter
arithmetic wrap modulo 256 and 65536 as claimed, but the run loop's PC
increment and the pos + 1 inside a 16-bit read are unchecked u16
additions: executing one instruction from a well-formed state aborts
with the overflow error exactly when the instruction is fetched at
PC = 0xFFFF, and a 16-bit read at position 0xFFFF aborts the same way
instead of wrapping to position 0. -/
theorem step_overflow_iff (s : CPU) (hwf : wfCPU s) :
    (s.step = .error .overflow ↔ s.program_counter = 0xFFFF) ∧
    s.bus.mem_read_u16 0xFFFF = .error .overflow := by
  constructor
  · constructor
    · intro h
      by_contra hne
      exact step_no_overflow s hwf hne h
    · intro hpc
      unfold CPU.step CPU.mem_read
      rw [hpc]
      have hr : s.bus.mem_read 0xFFFF = .ok 0 := by
        unfold Bus.mem_read
        rw [if_neg (by decide), if_neg (by decide)]
      rw [hr]
      simp only [Bind.bind, Except.bind]
      unfold chk16
      rw [if_neg (by decide : ¬(0xFFFF + 1 < 65536))]
  · unfold Bus.mem_read_u16
    have hr : s.bus.mem_read 0xFFFF = .ok 0 := by
      unfold Bus.mem_read
      rw [if_neg (by decide), if_neg (by decide)]
    rw [hr]
    simp only [Bind.bind, Except.bind]
    unfold chk16
    rw [if_neg (by decide : ¬(0xFFFF + 1 < 65536))]

/-- Well-formedness of the PC = 0xFFFF fixture. -/
theorem wf_cpuC8 : wfCPU cpuC8 :=
  ⟨by decide, by decide, by decide, by decide, by decide, by decide,
    fun i => by show (0 : Nat) < 256; decide⟩

/-- C8 amended witness: at the concrete state with PC = 0xFFFF the step
aborts with the overflow error, and at any other PC it cannot. -/
theorem step_overflow_iff_witness :
    (cpuC8.step = .error .overflow ↔ cpuC8.program_counter = 0xFFFF) ∧
    cpuC8.bus.mem_read_u16 0xFFFF = .error .overflow :=
  step_overflow_iff cpuC8 wf_cpuC8

/-! ## C6: load -/

/-- C6 counterexample: after load([]) the 16-bit read at 0xFFFC yields
0, not 0x0600: load's mem_write_u16(0xFFFC, 0x0600) is routed to the
bus's ignore arm (0xFFFC is outside every recognized range), so nothing
is stored and the read returns the open-bus value 0. -/
theorem load_reset_vector_cex :
    (do
      let s1 ← (CPU.new Bus.new).load []
      s1.bus.mem_read_u16 0xFFFC) = .ok 0 ∧ (0 : Nat) ≠ 0x0600 :=
  ⟨rfl, by decide⟩

/-- C6 amended: for every program of at most 2048 bytes, load copies the
bytes verbatim (each is readable back from 0x0600 + i) and sets PC to
0x0600, but the reset-vector store at 0xFFFC is dropped by the bus, so
reading the 16-bit word at 0xFFFC yields 0 rather than 0x0600. -/
theorem load_spec (s : CPU) (p : List Nat) (hlen : p.length ≤ 2048) :
    ∃ s', s.load p = .ok s' ∧
      (∀ i, i < p.length → s'.mem_read (0x600 + i) = .ok (p.getD i 0)) ∧
      s'.bus.mem_read_u16 0xFFFC = .ok 0 ∧
      s'.program_counter = 0x600 := by
  have hm : p.length % 65536 = p.length := Nat.mod_eq_of_lt (by omega)
  obtain ⟨b', hrun, hin, hout⟩ := copy_program_spec p p.length 0 s.bus (by omega)
  unfold CPU.load
  rw [hm, hrun]
  simp only [Bind.bind, Except.bind]
  rw [show Bus.mem_write_u16 b' 0xFFFC 0x0600 = .ok b' from rfl]
  refine ⟨_, rfl, ?_, rfl, rfl⟩
  intro i hi
  show Bus.mem_read b' (0x600 + i) = _
  rw [mem_read_ram _ _ (by omega), and_7ff_mod]
  rw [hin i (by omega) (by omega)]

/-- C6 amended witness: loading the one-byte program [7] makes 7
readable at 0x0600, leaves the word at 0xFFFC reading 0, and sets PC to
0x0600. -/
theorem load_spec_witness :
    ∃ s', (CPU.new Bus.new).load [7] = .ok s' ∧
      (∀ i, i < ([7] : List Nat).length →
        s'.mem_read (0x600 + i) = .ok (([7] : List Nat).getD i 0)) ∧
      s'.bus.mem_read_u16 0xFFFC = .ok 0 ∧
      s'.program_counter = 0x600 :=
  load_spec (CPU.new Bus.new) [7] (by decide)

/-! ## C10: load length safety -/

/-- C10 counterexample: a program of 65536 bytes is longer than 0x1A00,
yet load completes without aborting: the loop bound program.len() as u16
truncates 65536 to 0, so no byte is copied and no PPU-region write ever
happens. -/
theorem load_big_program_cex :
    (∃ s', (CPU.new Bus.new).load (List.replicate 65536 1) = .ok s') ∧
    0x1A00 < (List.replicate 65536 (1 : Nat)).length := by
  constructor
  · unfold CPU.load
    rw [show (List.replicate 65536 (1 : Nat)).length % 65536 = 0 by
      rw [List.length_replicate]]
    exact ⟨_, rfl⟩
  · rw [List.length_replicate]
    norm_num

/-- C10 amended: load(p) completes without aborting iff the 16-bit
truncation of the length, len(p) mod 65536, is at most 0x1A00: below
that bound every copied address stays in RAM 0x0000..=0x1FFF, and when
the truncated length exceeds it the copy reaches byte index 0x1A00,
writes to 0x0600 + 0x1A00 = 0x2000, and the bus aborts. -/
theorem load_ok_iff (s : CPU) (p : List Nat) :
    (∃ s', s.load p = .ok s') ↔ p.length % 65536 ≤ 0x1A00 := by
  constructor
  · intro h
    obtain ⟨s', hs⟩ := h
    by_contra hgt
    unfold CPU.load at hs
    rw [copy_program_fails p _ 0 s.bus (by omega) (by omega)] at hs
    simp only [Bind.bind, Except.bind] at hs
    cases hs
  · intro hle
    obtain ⟨b', hb'⟩ := copy_program_ok p (p.length % 65536) 0 s.bus (by omega)
    unfold CPU.load
    rw [hb']
    simp only [Bind.bind, Except.bind]
    rw [show Bus.mem_write_u16 b' 0xFFFC 0x0600 = .ok b' from rfl]
    exact ⟨_, rfl⟩

/-- C10 amended witness: the empty program loads successfully and its
truncated length 0 is within the bound. -/
theorem load_ok_iff_witness :
    (∃ s', (CPU.new Bus.new).load [] = .ok s') ∧
    ([] : List Nat).length % 65536 ≤ 0x1A00 :=
  ⟨(load_ok_iff (CPU.new Bus.new) []).mpr (by decide), by decide⟩

end Nes


